import Mathlib

/-!
Verification development for the trader-manus automated trading core.

JavaScript numbers are modelled as exact rationals (ℚ).  Modelling notes:
* `Math.max` / `Math.min` / `Math.abs` are `max` / `min` / `|·|` on ℚ.
* `Math.floor` / `Math.ceil` / `Math.round` are modelled with `Rat.floor` /
  `Rat.ceil` (`Math.round x = Math.floor (x + 1/2)` for the values that occur).
* `Math.sqrt` is modelled by `jsSqrt`, a rational square-root approximation
  (exact on perfect squares).  No claim below depends on its precision:
  every concrete evaluation stays in guard branches that bypass it or feeds
  it a perfect square.
* The JS idiom `x || d` on numbers (falsy fallback) is `jsOr`.
* Division by zero yields 0 in ℚ where JS would yield Infinity/NaN; each
  affected site is guarded in the source or flagged in a comment.
* `Math.random()` is modelled as an explicit stream `ℕ → ℚ` of draws in
  [0,1); each simulated-sentiment function consumes a fixed window of the
  stream, exactly mirroring the order of the `Math.random()` calls.
* String fields that are only logged (reasons, descriptions) are omitted.
-/

namespace TraderManus

attribute [local semireducible] Rat.add Rat.mul Rat.sub Rat.inv Rat.ofScientific

set_option maxRecDepth 100000

set_option maxHeartbeats 1000000

/-- `Math.max` on rationals. -/
def jsMax (a b : ℚ) : ℚ := max a b

/-- `Math.min` on rationals. -/
def jsMin (a b : ℚ) : ℚ := min a b

/-- `Math.floor`, as a rational-valued function. -/
def jsFloor (x : ℚ) : ℚ := (Rat.floor x : ℤ)

/-- `Math.ceil`, as a rational-valued function. -/
def jsCeil (x : ℚ) : ℚ := (Rat.ceil x : ℤ)

/-- `Math.round` (round half toward +∞, as in JS). -/
def jsRound (x : ℚ) : ℚ := jsFloor (x + 1/2)

/-- `Math.round(x * 100) / 100`, the 2-decimal rounding used by the indicators. -/
def roundTo2 (x : ℚ) : ℚ := jsRound (x * 100) / 100

/-- `Math.round(x * 10000) / 10000`, the 4-decimal rounding used by MACD. -/
def roundTo4 (x : ℚ) : ℚ := jsRound (x * 10000) / 10000

/-- The JS `x || d` fallback on numbers: `0` (falsy) is replaced by `d`. -/
def jsOr (x d : ℚ) : ℚ := if x = 0 then d else x

/-- Linear-scan integer square root (kernel-friendly stand-in for `Nat.sqrt`). -/
def isqrtNat (n : ℕ) : ℕ :=
  ((List.range (n + 1)).filter (fun k => k * k ≤ n)).length - 1

/-- Model of `Math.sqrt` on nonnegative rationals: integer square roots of
numerator and denominator (exact on perfect squares). -/
def jsSqrt (q : ℚ) : ℚ := mkRat (Int.ofNat (isqrtNat q.num.toNat)) (isqrtNat q.den)

/-- Sum of a list of rationals (`reduce((a, b) => a + b, 0)`; for the
initializer-free `reduce((a, b) => a + b)` the callers guarantee a nonempty
list, on which the two agree). -/
def sumQ (l : List ℚ) : ℚ := l.foldl (· + ·) 0

/-- `Math.max(...l)` over a list; callers guarantee nonemptiness. -/
def maxListQ : List ℚ → ℚ
  | [] => 0
  | x :: xs => xs.foldl max x

/-- `Math.min(...l)` over a list; callers guarantee nonemptiness. -/
def minListQ : List ℚ → ℚ
  | [] => 0
  | x :: xs => xs.foldl min x

/-- `l.slice(-n)`: the last `n` elements (whole list when shorter). -/
def lastN (l : List α) (n : ℕ) : List α := l.drop (l.length - n)

/-- `l.slice(a, b)` for `0 ≤ a ≤ b`. -/
def sliceJS (l : List α) (a b : ℕ) : List α := (l.drop a).take (b - a)

/-- First index of the maximum value (`l.indexOf(Math.max(...l))`). -/
def idxOfMax (l : List ℚ) : ℕ := l.findIdx (fun v => v == maxListQ l)

/-- One OHLCV bar (`{ open, high, low, close, volume }`; the timestamp is
never read by the analysis code and is omitted). -/
structure Candle where
  open_ : ℚ
  high : ℚ
  low : ℚ
  close : ℚ
  volume : ℚ
deriving DecidableEq, Repr

instance : Inhabited Candle := ⟨⟨0, 0, 0, 0, 0⟩⟩

/-- Last element of a rational list (`arr[arr.length - 1]`; callers guarantee
nonemptiness). -/
def lastQ (l : List ℚ) : ℚ := l.getLastD 0

/-- Last candle of a list (callers guarantee nonemptiness). -/
def lastCandle (l : List Candle) : Candle := l.getLastD default

/-- Consecutive differences `a[i] - a[i-1]` for `i = 1 .. length-1`. -/
def diffsQ (l : List ℚ) : List ℚ := (l.zip (l.drop 1)).map (fun p => p.2 - p.1)

/- ================= indicators.js ================= -/

/-- `calculateRSI(closes, period = 14)`. -/
def calculateRSI (closes : List ℚ) (period : ℕ := 14) : ℚ :=
  if closes.length < period + 1 then 50
  else
    let ds := lastN (diffsQ closes) period
    let gains := sumQ (ds.map (fun d => if 0 < d then d else 0))
    let losses := sumQ (ds.map (fun d => if 0 < d then 0 else |d|))
    let avgGain := gains / period
    let avgLoss := losses / period
    if avgLoss = 0 then 100
    else if avgGain = 0 then 0
    else
      let rs := avgGain / avgLoss
      roundTo2 (100 - 100 / (1 + rs))

/-- `calculateEMA(data, period)` (a plain fold; for `data.length < period`
the source returns `data[data.length - 1]`). -/
def calculateEMA (data : List ℚ) (period : ℕ) : ℚ :=
  if data.length < period then lastQ data
  else
    match data with
    | [] => 0
    | x :: xs =>
      let k : ℚ := 2 / ((period : ℚ) + 1)
      xs.foldl (fun e v => v * k + e * (1 - k)) x

/-- Output of `calculateMACD`. -/
structure MacdOut where
  macd : ℚ
  signal : ℚ
  histogram : ℚ
deriving DecidableEq, Repr

/-- `calculateMACD(closes)`.  Note the source computes the signal line as
`calculateEMA([macd], 9)`, i.e. the EMA of a one-element list, which is
`macd` itself. -/
def calculateMACD (closes : List ℚ) : MacdOut :=
  if closes.length < 26 then ⟨0, 0, 0⟩
  else
    let ema12 := calculateEMA closes 12
    let ema26 := calculateEMA closes 26
    let macd := ema12 - ema26
    let signal := calculateEMA [macd] 9
    ⟨roundTo4 macd, roundTo4 signal, roundTo4 (macd - signal)⟩

/-- Output of `calculateBollingerBands`. -/
structure BBands where
  upper : ℚ
  middle : ℚ
  lower : ℚ
deriving DecidableEq, Repr

/-- `calculateBollingerBands(closes, period = 20, stdDev = 2)`. -/
def calculateBollingerBands (closes : List ℚ) (period : ℕ := 20)
    (stdDev : ℚ := 2) : BBands :=
  if closes.length < period then ⟨0, 0, 0⟩
  else
    let recent := lastN closes period
    let middle := sumQ recent / period
    let variance := sumQ (recent.map (fun p => (p - middle) * (p - middle))) / period
    let std := jsSqrt variance
    ⟨roundTo2 (middle + stdDev * std), roundTo2 middle, roundTo2 (middle - stdDev * std)⟩

/-- `calculateSMA(closes, period)`. -/
def calculateSMA (closes : List ℚ) (period : ℕ) : ℚ :=
  if closes.length < period then lastQ closes
  else roundTo2 (sumQ (lastN closes period) / period)

/-- `calculateAverageVolume(volumes, period = 20)`. -/
def calculateAverageVolume (volumes : List ℚ) (period : ℕ := 20) : ℚ :=
  if volumes.length < period then lastQ volumes
  else sumQ (lastN volumes period) / period

/-- `calculateATR(candles, period = 14)`. -/
def calculateATR (candles : List Candle) (period : ℕ := 14) : ℚ :=
  if candles.length < period then 0
  else
    let trValues := (candles.zip (candles.drop 1)).map (fun p =>
      jsMax (p.2.high - p.2.low)
        (jsMax |p.2.high - p.1.close| |p.2.low - p.1.close|))
    roundTo2 (sumQ (lastN trValues period) / period)

/-- Output of `calculateStochastic`. -/
structure StochOut where
  k : ℚ
  d : ℚ
deriving DecidableEq, Repr

/-- `calculateStochastic(candles, period = 14)`.  The source computes
`((close - low) / (high - low)) * 100 || 50`; with `high = low` the JS value
is NaN (falsy) and falls back to 50, which `jsOr` over the guarded quotient
reproduces; a computed 0 likewise falls back to 50. -/
def calculateStochastic (candles : List Candle) (period : ℕ := 14) : StochOut :=
  if candles.length < period then ⟨50, 50⟩
  else
    let recent := lastN candles period
    let hh := maxListQ (recent.map (·.high))
    let ll := minListQ (recent.map (·.low))
    let c := (lastCandle candles).close
    let k := jsOr (if hh = ll then 0 else (c - ll) / (hh - ll) * 100) 50
    ⟨roundTo2 k, roundTo2 k⟩

/-- Three-valued trend / direction ('bullish' | 'bearish' | 'neutral'). -/
inductive Trend3 where
  | bullish
  | bearish
  | neutral
deriving DecidableEq, Repr

/-- `getTrend(rsi, sma20, sma50, price)`. -/
def getTrend (rsi sma20 sma50 price : ℚ) : Trend3 :=
  let bullishSignals : ℕ :=
    (if rsi < 30 then 1 else 0) + (if sma50 < sma20 then 1 else 0) +
      (if sma20 < price then 1 else 0)
  let bearishSignals : ℕ :=
    (if 70 < rsi then 1 else 0) + (if sma20 < sma50 then 1 else 0) +
      (if price < sma20 then 1 else 0)
  if bearishSignals < bullishSignals then .bullish
  else if bullishSignals < bearishSignals then .bearish
  else .neutral

/-- `analyzeIndicators(candles)` output. -/
structure BasicIndicators where
  price : ℚ
  rsi : ℚ
  macd : MacdOut
  bollinger : BBands
  sma20 : ℚ
  sma50 : ℚ
  atr : ℚ
  stochastic : StochOut
  avgVolume : ℚ
  currentVolume : ℚ
  trend : Trend3
deriving DecidableEq, Repr

/-- `analyzeIndicators(candles)`. -/
def analyzeIndicators (candles : List Candle) : BasicIndicators :=
  let closes := candles.map (·.close)
  let volumes := candles.map (·.volume)
  let rsi := calculateRSI closes
  let sma20 := calculateSMA closes 20
  let sma50 := calculateSMA closes 50
  let currentPrice := lastQ closes
  { price := currentPrice
    rsi := rsi
    macd := calculateMACD closes
    bollinger := calculateBollingerBands closes
    sma20 := sma20
    sma50 := sma50
    atr := calculateATR candles
    stochastic := calculateStochastic candles
    avgVolume := calculateAverageVolume volumes
    currentVolume := lastQ volumes
    trend := getTrend rsi sma20 sma50 currentPrice }

/- ================= advanced-indicators.js ================= -/

/-- Market-signal labels used by the advanced indicators and volume profile
('BULLISH' | 'BEARISH' | 'SLIGHTLY_BULLISH' | 'SLIGHTLY_BEARISH' | 'NEUTRAL';
the three-valued indicators never produce the SLIGHTLY_* labels). -/
inductive MSig where
  | BULLISH
  | BEARISH
  | SLIGHTLY_BULLISH
  | SLIGHTLY_BEARISH
  | NEUTRAL
deriving DecidableEq, Repr

/-- Output of `calculateIchimoku`. -/
structure IchimokuOut where
  tenkan : ℚ
  kijun : ℚ
  senkouA : ℚ
  senkouB : ℚ
  chikou : ℚ
  signal : MSig
deriving DecidableEq, Repr

/-- `calculateIchimoku(candles)`. -/
def calculateIchimoku (candles : List Candle) : IchimokuOut :=
  if candles.length < 52 then ⟨0, 0, 0, 0, 0, .NEUTRAL⟩
  else
    let tenkan := (maxListQ ((lastN candles 9).map (·.high)) +
      minListQ ((lastN candles 9).map (·.low))) / 2
    let kijun := (maxListQ ((lastN candles 26).map (·.high)) +
      minListQ ((lastN candles 26).map (·.low))) / 2
    let senkouA := (tenkan + kijun) / 2
    let senkouB := (maxListQ ((lastN candles 52).map (·.high)) +
      minListQ ((lastN candles 52).map (·.low))) / 2
    let chikou := (lastCandle candles).close
    let currentPrice := (lastCandle candles).close
    let signal :=
      if jsMax senkouA senkouB < currentPrice ∧ kijun < tenkan then MSig.BULLISH
      else if currentPrice < jsMin senkouA senkouB ∧ tenkan < kijun then MSig.BEARISH
      else MSig.NEUTRAL
    ⟨tenkan, kijun, senkouA, senkouB, chikou, signal⟩

/-- Output of `calculateStochasticRSI`. -/
structure StochRSIOut where
  k : ℚ
  d : ℚ
  signal : MSig
deriving DecidableEq, Repr

/-- The per-window RSI value used inside `calculateStochasticRSI` (the loop
body over `closes.slice(i - period, i)`; note it differs from `calculateRSI`
in mapping an all-loss window to `rs = 100` instead of returning early). -/
def stochWindowRSI (closes : List ℚ) (period : ℕ) (i : ℕ) : ℚ :=
  let slice := sliceJS closes (i - period) i
  let ds := diffsQ slice
  let gains := sumQ (ds.map (fun d => if 0 < d then d else 0))
  let losses := sumQ (ds.map (fun d => if 0 < d then 0 else |d|))
  let avgGain := gains / period
  let avgLoss := losses / period
  let rs := if avgLoss = 0 then 100 else avgGain / avgLoss
  100 - 100 / (1 + rs)

/-- `calculateStochasticRSI(candles, period = 14)`. -/
def calculateStochasticRSI (candles : List Candle) (period : ℕ := 14) : StochRSIOut :=
  if candles.length < period + 1 then ⟨50, 50, .NEUTRAL⟩
  else
    let closes := candles.map (·.close)
    let rsiValues := (List.range (closes.length - period)).map
      (fun j => stochWindowRSI closes period (period + j))
    if rsiValues.length < 14 then ⟨50, 50, .NEUTRAL⟩
    else
      let recentRSI := lastN rsiValues 14
      let maxRSI := maxListQ recentRSI
      let minRSI := minListQ recentRSI
      let currentRSI := lastQ rsiValues
      let k := if maxRSI = minRSI then 50
        else (currentRSI - minRSI) / (maxRSI - minRSI) * 100
      let kValues := (List.range 3).map (fun j =>
        let i := rsiValues.length - 3 + j
        let slice := sliceJS rsiValues (i - 14) i
        let mx := maxListQ slice
        let mn := minListQ slice
        let rsi := rsiValues.getD i 0
        if mx = mn then (50 : ℚ) else (rsi - mn) / (mx - mn) * 100)
      let d := sumQ kValues / kValues.length
      let signal :=
        if k < 20 ∧ d < k then MSig.BULLISH
        else if 80 < k ∧ k < d then MSig.BEARISH
        else MSig.NEUTRAL
      ⟨k, d, signal⟩

/-- ADX trend-strength labels. -/
inductive AdxTrend where
  | WEAK
  | MODERATE
  | STRONG
  | VERY_STRONG
deriving DecidableEq, Repr

/-- Output of `calculateADX`. -/
structure AdxOut where
  adx : ℚ
  plusDI : ℚ
  minusDI : ℚ
  trend : AdxTrend
deriving DecidableEq, Repr

/-- `calculateADX(candles, period = 14)`. -/
def calculateADX (candles : List Candle) (period : ℕ := 14) : AdxOut :=
  if candles.length < period + 1 then ⟨0, 0, 0, .WEAK⟩
  else
    let pairs := candles.zip (candles.drop 1)
    let tr := pairs.map (fun p =>
      jsMax (p.2.high - p.2.low)
        (jsMax |p.2.high - p.1.close| |p.2.low - p.1.close|))
    let plusDM := pairs.map (fun p =>
      let upMove := p.2.high - p.1.high
      let downMove := p.1.low - p.2.low
      if downMove < upMove ∧ 0 < upMove then upMove else 0)
    let minusDM := pairs.map (fun p =>
      let upMove := p.2.high - p.1.high
      let downMove := p.1.low - p.2.low
      if upMove < downMove ∧ 0 < downMove then downMove else 0)
    if tr.length < period then ⟨0, 0, 0, .WEAK⟩
    else
      let smoothTR := sumQ (lastN tr period)
      let smoothPlusDM := sumQ (lastN plusDM period)
      let smoothMinusDM := sumQ (lastN minusDM period)
      let plusDI := if smoothTR = 0 then 0 else smoothPlusDM / smoothTR * 100
      let minusDI := if smoothTR = 0 then 0 else smoothMinusDM / smoothTR * 100
      let dx := if plusDI + minusDI = 0 then 0
        else |plusDI - minusDI| / (plusDI + minusDI) * 100
      let adx := dx
      let trend :=
        if 50 < adx then AdxTrend.VERY_STRONG
        else if 25 < adx then AdxTrend.STRONG
        else if 20 < adx then AdxTrend.MODERATE
        else AdxTrend.WEAK
      ⟨adx, plusDI, minusDI, trend⟩

/-- Output of `calculateOBV`. -/
structure ObvOut where
  obv : ℚ
  trend : MSig
deriving DecidableEq, Repr

/-- `calculateOBV(candles)`. -/
def calculateOBV (candles : List Candle) : ObvOut :=
  if candles.length < 2 then ⟨0, .NEUTRAL⟩
  else
    let steps := (candles.zip (candles.drop 1)).map (fun p =>
      if p.1.close < p.2.close then p.2.volume
      else if p.2.close < p.1.close then -p.2.volume
      else 0)
    let obvValues := steps.scanl (· + ·) 0
    let recentOBV := lastN obvValues 20
    let obvSMA := sumQ recentOBV / recentOBV.length
    let currentOBV := lastQ obvValues
    let trend :=
      if obvSMA * (11/10) < currentOBV then MSig.BULLISH
      else if currentOBV < obvSMA * (9/10) then MSig.BEARISH
      else MSig.NEUTRAL
    ⟨currentOBV, trend⟩

/-- Output of `calculateFibonacci` (the `levels` object is flattened; the
`0%` and `100%` levels coincide with `high` and `low`). -/
structure FibOut where
  high : ℚ
  low : ℚ
  l236 : ℚ
  l382 : ℚ
  l500 : ℚ
  l618 : ℚ
  l786 : ℚ
  signal : MSig
deriving DecidableEq, Repr

/-- `calculateFibonacci(candles, lookback = 100)` (in the short-window branch
the source returns an empty `levels` object together with zeros; the
flattened level fields are 0 there as well). -/
def calculateFibonacci (candles : List Candle) (lookback : ℕ := 100) : FibOut :=
  if candles.length < lookback then ⟨0, 0, 0, 0, 0, 0, 0, .NEUTRAL⟩
  else
    let recent := lastN candles lookback
    let high := maxListQ (recent.map (·.high))
    let low := minListQ (recent.map (·.low))
    let diff := high - low
    let l236 := high - diff * (236/1000)
    let l382 := high - diff * (382/1000)
    let l500 := high - diff * (1/2)
    let l618 := high - diff * (618/1000)
    let l786 := high - diff * (786/1000)
    let currentPrice := (lastCandle candles).close
    let signal :=
      if |currentPrice - l618| / currentPrice < 1/100 ∨
          |currentPrice - l786| / currentPrice < 1/100 then MSig.BULLISH
      else if |currentPrice - l236| / currentPrice < 1/100 ∨
          |currentPrice - l382| / currentPrice < 1/100 then MSig.BEARISH
      else MSig.NEUTRAL
    ⟨high, low, l236, l382, l500, l618, l786, signal⟩

/-- `analyzeAdvancedIndicators(candles)` output. -/
structure AdvancedIndicators where
  ichimoku : IchimokuOut
  stochRSI : StochRSIOut
  adx : AdxOut
  obv : ObvOut
  fibonacci : FibOut
deriving DecidableEq, Repr

/-- `analyzeAdvancedIndicators(candles)`. -/
def analyzeAdvancedIndicators (candles : List Candle) : AdvancedIndicators :=
  ⟨calculateIchimoku candles, calculateStochasticRSI candles, calculateADX candles,
    calculateOBV candles, calculateFibonacci candles⟩

/- ================= volume-analysis.js ================= -/

/-- Output of `analyzeVolumeProfile`. -/
structure ProfileOut where
  poc : ℚ
  vah : ℚ
  val : ℚ
  signal : MSig
deriving DecidableEq, Repr

/-- Bin index for one candle close (`Math.min(bins - 1, Math.floor((close -
minPrice) / binSize))`).  Degenerate inputs (a close below the global low, or
`binSize = 0` — NaN index territory in JS) are clamped to bin 0; valid OHLCV
windows never hit those branches. -/
def profileBinIdx (bins : ℕ) (minPrice binSize close : ℚ) : ℕ :=
  min (bins - 1) ((Rat.floor ((close - minPrice) / binSize)).toNat)

/-- The `while (accumulatedVolume < targetVolume && ...)` value-area loop of
`analyzeVolumeProfile`, via fuel.  Each iteration either lowers `lowIndex`,
raises `highIndex`, or breaks, so `fuel = bins` is never exhausted (the loop
runs at most `bins - 1` times). -/
def valueAreaLoop (volumeBins : List ℚ) (bins : ℕ) (targetVolume : ℚ) :
    ℕ → ℚ → ℕ → ℕ → ℕ × ℕ
  | 0, _, lowIndex, highIndex => (lowIndex, highIndex)
  | fuel + 1, acc, lowIndex, highIndex =>
    if acc < targetVolume ∧ (0 < lowIndex ∨ highIndex < bins - 1) then
      let lowVolume := if 0 < lowIndex then volumeBins.getD (lowIndex - 1) 0 else 0
      let highVolume := if highIndex < bins - 1 then volumeBins.getD (highIndex + 1) 0 else 0
      if highVolume < lowVolume ∧ 0 < lowIndex then
        valueAreaLoop volumeBins bins targetVolume fuel (acc + lowVolume) (lowIndex - 1) highIndex
      else if highIndex < bins - 1 then
        valueAreaLoop volumeBins bins targetVolume fuel (acc + highVolume) lowIndex (highIndex + 1)
      else (lowIndex, highIndex)
    else (lowIndex, highIndex)

/-- `analyzeVolumeProfile(candles, bins = 20)`. -/
def analyzeVolumeProfile (candles : List Candle) (bins : ℕ := 20) : ProfileOut :=
  if candles.length < 20 then ⟨0, 0, 0, .NEUTRAL⟩
  else
    let prices := candles.flatMap (fun c => [c.high, c.low])
    let minPrice := minListQ prices
    let maxPrice := maxListQ prices
    let binSize := (maxPrice - minPrice) / bins
    let volumeBins := candles.foldl (fun acc c =>
      let i := profileBinIdx bins minPrice binSize c.close
      acc.set i (acc.getD i 0 + c.volume)) (List.replicate bins (0 : ℚ))
    let maxVolumeIndex := idxOfMax volumeBins
    let poc := minPrice + maxVolumeIndex * binSize + binSize / 2
    let totalVolume := sumQ volumeBins
    let targetVolume := totalVolume * (7/10)
    let se := valueAreaLoop volumeBins bins targetVolume bins
      (volumeBins.getD maxVolumeIndex 0) maxVolumeIndex maxVolumeIndex
    let val := minPrice + se.1 * binSize
    let vah := minPrice + (se.2 + 1) * binSize
    let currentPrice := (lastCandle candles).close
    let signal :=
      if vah < currentPrice then MSig.BULLISH
      else if currentPrice < val then MSig.BEARISH
      else if poc < currentPrice then MSig.SLIGHTLY_BULLISH
      else if currentPrice < poc then MSig.SLIGHTLY_BEARISH
      else MSig.NEUTRAL
    ⟨poc, vah, val, signal⟩

/-- Order-flow pressure labels. -/
inductive FlowPressure where
  | STRONG_BUY
  | BUY
  | SELL
  | STRONG_SELL
  | NEUTRAL
deriving DecidableEq, Repr

/-- Output of `analyzeOrderFlow` (`ratio_` models the `ratio` field). -/
structure FlowOut where
  buyVolume : ℚ
  sellVolume : ℚ
  ratio_ : ℚ
  pressure : FlowPressure
deriving DecidableEq, Repr

/-- `analyzeOrderFlow(candles)`.  A candle with `high = low` and a nonzero
body would divide by zero in the source (NaN); such candles are invalid
OHLCV data and the ℚ-total division returns 0 there. -/
def analyzeOrderFlow (candles : List Candle) : FlowOut :=
  if candles.length < 20 then ⟨0, 0, 1, .NEUTRAL⟩
  else
    let bs := candles.foldl (fun (acc : ℚ × ℚ) c =>
      let priceChange := c.close - c.open_
      if 0 < priceChange then
        let buyRatio := priceChange / (c.high - c.low)
        (acc.1 + c.volume * buyRatio, acc.2 + c.volume * (1 - buyRatio))
      else if priceChange < 0 then
        let sellRatio := |priceChange| / (c.high - c.low)
        (acc.1 + c.volume * (1 - sellRatio), acc.2 + c.volume * sellRatio)
      else (acc.1 + c.volume / 2, acc.2 + c.volume / 2)) (0, 0)
    let ratio := if bs.2 = 0 then 10 else bs.1 / bs.2
    let pressure :=
      if 3/2 < ratio then FlowPressure.STRONG_BUY
      else if 6/5 < ratio then FlowPressure.BUY
      else if ratio < 67/100 then FlowPressure.STRONG_SELL
      else if ratio < 83/100 then FlowPressure.SELL
      else FlowPressure.NEUTRAL
    ⟨bs.1, bs.2, ratio, pressure⟩

/-- Support/resistance proximity labels. -/
inductive SRSig where
  | NEAR_SUPPORT
  | NEAR_RESISTANCE
  | NEUTRAL
deriving DecidableEq, Repr

/-- Output of `identifySupportResistance`. -/
structure SROut where
  supports : List ℚ
  resistances : List ℚ
  nearestSupport : ℚ
  nearestResistance : ℚ
  signal : SRSig
deriving DecidableEq, Repr

/-- Replace the first element satisfying `p` by `f` of it (the source's
`list[index] = average` after `list.find(...)`). -/
def updateFirst (p : ℚ → Bool) (f : ℚ → ℚ) : List ℚ → List ℚ
  | [] => []
  | x :: xs => if p x then f x :: xs else x :: updateFirst p f xs

/-- Stable insertion of `x` into `l`, descending by `key`. -/
def insertDescBy (key : α → ℚ) (x : α) : List α → List α
  | [] => [x]
  | y :: ys => if key y < key x then x :: y :: ys else y :: insertDescBy key x ys

/-- Stable sort, descending by `key` (models JS `sort((a, b) => key b - key a)`). -/
def sortDescBy (key : α → ℚ) : List α → List α
  | [] => []
  | x :: xs => insertDescBy key x (sortDescBy key xs)

/-- Stable sort, ascending by `key` (models JS `sort((a, b) => key a - key b)`). -/
def sortAscBy (key : α → ℚ) (l : List α) : List α := sortDescBy (fun a => -(key a)) l

/-- One pivot: a price and whether it is a resistance (`true`) or support. -/
def srPivots (prices : List ℚ) : List (ℚ × Bool) :=
  (List.range (prices.length - 10)).filterMap (fun j =>
    let i := j + 5
    let slice := sliceJS prices (i - 5) (i + 6)
    let price := prices.getD i 0
    if price = maxListQ slice then some (price, true)
    else if price = minListQ slice then some (price, false)
    else none)

/-- The pivot-grouping fold of `identifySupportResistance` (averages a pivot
into the first level within `tolerance`, else appends it). -/
def srGroup (tolerance : ℚ) (pivots : List (ℚ × Bool)) : List ℚ × List ℚ :=
  pivots.foldl (fun (acc : List ℚ × List ℚ) pv =>
    let list := if pv.2 then acc.2 else acc.1
    let upd :=
      if (list.find? (fun p => decide (|p - pv.1| / pv.1 < tolerance))).isSome then
        updateFirst (fun p => decide (|p - pv.1| / pv.1 < tolerance))
          (fun p => (p + pv.1) / 2) list
      else list ++ [pv.1]
    if pv.2 then (acc.1, upd) else (upd, acc.2)) ([], [])

/-- `identifySupportResistance(candles, tolerance = 0.02)`. -/
def identifySupportResistance (candles : List Candle) (tolerance : ℚ := 1/50) : SROut :=
  if candles.length < 50 then ⟨[], [], 0, 0, .NEUTRAL⟩
  else
    let currentPrice := (lastCandle candles).close
    let prices := candles.map (·.close)
    let grouped := srGroup tolerance (srPivots prices)
    let supports := sortDescBy id grouped.1
    let resistances := sortAscBy id grouped.2
    let nearestSupport := (supports.find? (fun s => decide (s < currentPrice))).getD 0
    let nearestResistance := (resistances.find? (fun r => decide (currentPrice < r))).getD 0
    let distanceToSupport := if nearestSupport = 0 then 1
      else (currentPrice - nearestSupport) / currentPrice
    let distanceToResistance := if nearestResistance = 0 then 1
      else (nearestResistance - currentPrice) / currentPrice
    let signal :=
      if distanceToSupport < 1/100 then SRSig.NEAR_SUPPORT
      else if distanceToResistance < 1/100 then SRSig.NEAR_RESISTANCE
      else SRSig.NEUTRAL
    ⟨supports.take 3, resistances.take 3, nearestSupport, nearestResistance, signal⟩

/-- Liquidity tiers. -/
inductive LiqLevel where
  | VERY_HIGH
  | HIGH
  | NORMAL
  | LOW
  | VERY_LOW
deriving DecidableEq, Repr

/-- Output of `analyzeLiquidity`. -/
structure LiquidityOut where
  avgVolume : ℚ
  currentVolume : ℚ
  liquidity : LiqLevel
  score : ℚ
deriving DecidableEq, Repr

/-- `analyzeLiquidity(candles)`. -/
def analyzeLiquidity (candles : List Candle) : LiquidityOut :=
  if candles.length < 20 then ⟨0, 0, .LOW, 0⟩
  else
    let volumes := candles.map (·.volume)
    let avgVolume := sumQ volumes / volumes.length
    let currentVolume := lastQ volumes
    let volumeRatio := currentVolume / avgVolume
    if 2 < volumeRatio then ⟨avgVolume, currentVolume, .VERY_HIGH, 100⟩
    else if 3/2 < volumeRatio then ⟨avgVolume, currentVolume, .HIGH, 80⟩
    else if 1 < volumeRatio then ⟨avgVolume, currentVolume, .NORMAL, 60⟩
    else if 1/2 < volumeRatio then ⟨avgVolume, currentVolume, .LOW, 40⟩
    else ⟨avgVolume, currentVolume, .VERY_LOW, 20⟩

/-- `analyzeCompleteVolume(candles)` output. -/
structure VolumeAnalysis where
  profile : ProfileOut
  orderFlow : FlowOut
  supportResistance : SROut
  liquidity : LiquidityOut
deriving DecidableEq, Repr

/-- `analyzeCompleteVolume(candles)`. -/
def analyzeCompleteVolume (candles : List Candle) : VolumeAnalysis :=
  ⟨analyzeVolumeProfile candles, analyzeOrderFlow candles,
    identifySupportResistance candles, analyzeLiquidity candles⟩

/- ================= lstm.js (predictPrice) ================= -/

/-- Output of `predictPrice` (the diagnostic `signals` sub-object is not read
by any caller and is omitted). -/
structure Prediction where
  prediction : ℚ
  confidence : ℚ
  direction : Trend3
deriving DecidableEq, Repr

/-- `predictPrice(closes, lookback = 60)`, with `extractFeatures` inlined
(after the length guard the feature list always has exactly one entry).
The volatility-based confidence adjustment in the source (lines 160-164) is
dead code — line 168 overwrites `confidence` unconditionally — and therefore
does not appear in the result. -/
def predictPrice (closes : List ℚ) (lookback : ℕ := 60) : Prediction :=
  if closes.length < lookback then ⟨lastQ closes, 0, .neutral⟩
  else
    let recentCloses := lastN closes lookback
    let mn := minListQ recentCloses
    let mx := maxListQ recentCloses
    let range := jsOr (mx - mn) 1
    let normalized := recentCloses.map (fun x => (x - mn) / range)
    let returns := diffsQ normalized
    let avgReturn := sumQ returns / returns.length
    let trend := (lastQ normalized - normalized.headD 0) / normalized.length
    let momentum := lastQ returns
    let bullishSignals : ℕ :=
      (if 1/1000 < trend then 1 else 0) +
        (if avgReturn < momentum then 1 else 0) +
        (if 3 ≤ ((lastN returns 5).filter (fun r => decide (0 < r))).length then 1 else 0)
    let bearishSignals : ℕ :=
      (if trend < -(1/1000) then 1 else 0) +
        (if momentum < avgReturn then 1 else 0) +
        (if ¬ 3 ≤ ((lastN returns 5).filter (fun r => decide (0 < r))).length then 1 else 0)
    let signalDifference : ℚ :=
      |(bullishSignals : ℚ) - (bearishSignals : ℚ)|
    let confidence := jsMin 99 (jsMax 1 (50 + signalDifference * 15))
    let currentPrice := lastQ closes
    let expectedReturn := trend + momentum * (1/2)
    let direction :=
      if bearishSignals < bullishSignals then Trend3.bullish
      else if bullishSignals < bearishSignals then Trend3.bearish
      else Trend3.neutral
    ⟨roundTo2 (currentPrice * (1 + expectedReturn)), jsRound confidence, direction⟩

/- ================= sentiment-analysis.js ================= -/

/-- Five-valued sentiment labels. -/
inductive Sentiment5 where
  | very_positive
  | positive
  | neutral
  | negative
  | very_negative
deriving DecidableEq, Repr

/-- Social-sentiment labels. -/
inductive Social3 where
  | bullish
  | bearish
  | neutral
deriving DecidableEq, Repr

/-- Output of `analyzeNewsSentiment` (the constant `source` field is omitted). -/
structure NewsSentiment where
  sentiment : Sentiment5
  score : ℚ
  confidence : ℚ
  newsCount : ℚ
deriving DecidableEq, Repr

/-- Output of `analyzeSocialSentiment`. -/
structure SocialSentiment where
  sentiment : Social3
  score : ℚ
  engagement : ℚ
  mentions : ℚ
deriving DecidableEq, Repr

/-- `analyzeNewsSentiment(symbol)`.  The simulated sentiment draws from
`Math.random()`; the stream `r` supplies the four draws in call order
(`rand`, the branch's `score` draw, the branch's `confidence` draw, and the
`newsCount` draw).  `symbol` is only used to derive a coin name for display
and never influences the result. -/
def analyzeNewsSentiment (r : ℕ → ℚ) (symbol : String) : NewsSentiment :=
  let _coin := symbol
  let rand := r 0
  if rand < 1/5 then
    ⟨.very_positive, 80 + r 1 * 20, 75 + r 2 * 25, jsFloor (r 3 * 50) + 10⟩
  else if rand < 2/5 then
    ⟨.positive, 60 + r 1 * 20, 60 + r 2 * 20, jsFloor (r 3 * 50) + 10⟩
  else if rand < 3/5 then
    ⟨.neutral, 40 + r 1 * 20, 40 + r 2 * 20, jsFloor (r 3 * 50) + 10⟩
  else if rand < 4/5 then
    ⟨.negative, 20 + r 1 * 20, 60 + r 2 * 20, jsFloor (r 3 * 50) + 10⟩
  else
    ⟨.very_negative, 0 + r 1 * 20, 75 + r 2 * 25, jsFloor (r 3 * 50) + 10⟩

/-- `analyzeSocialSentiment(symbol)`; `r` supplies the four `Math.random()`
draws in call order (`rand`, `score`, `engagement`, `mentions`).  The
`Math.floor` on engagement is applied on return as in the source. -/
def analyzeSocialSentiment (r : ℕ → ℚ) (symbol : String) : SocialSentiment :=
  let _coin := symbol
  let rand := r 0
  if rand < 1/4 then
    ⟨.bullish, 60 + r 1 * 40, jsFloor (5000 + r 2 * 10000), jsFloor (r 3 * 1000) + 100⟩
  else if rand < 1/2 then
    ⟨.bearish, 0 + r 1 * 40, jsFloor (5000 + r 2 * 10000), jsFloor (r 3 * 1000) + 100⟩
  else
    ⟨.neutral, 40 + r 1 * 20, jsFloor (1000 + r 2 * 5000), jsFloor (r 3 * 1000) + 100⟩

/-- Output of `analyzeCombinedSentiment`. -/
structure CombinedSentiment where
  overall : Sentiment5
  score : ℚ
  impact : ℚ
  news : NewsSentiment
  social : SocialSentiment
  confidence : ℚ
deriving DecidableEq, Repr

/-- `analyzeCombinedSentiment(symbol)`: news consumes draws 0-3 of the
stream, social consumes draws 4-7.  (The source's combined `confidence`
really averages `news.confidence` with `social.score`.) -/
def analyzeCombinedSentiment (r : ℕ → ℚ) (symbol : String) : CombinedSentiment :=
  let news := analyzeNewsSentiment r symbol
  let social := analyzeSocialSentiment (fun i => r (4 + i)) symbol
  let combinedScore := news.score * (6/10) + social.score * (4/10)
  let ov :=
    if 70 ≤ combinedScore then (Sentiment5.very_positive, (15 : ℚ))
    else if 55 ≤ combinedScore then (Sentiment5.positive, 10)
    else if 45 ≤ combinedScore then (Sentiment5.neutral, 0)
    else if 30 ≤ combinedScore then (Sentiment5.negative, -10)
    else (Sentiment5.very_negative, -15)
  ⟨ov.1, combinedScore, ov.2, news, social, (news.confidence + social.score) / 2⟩

/-- Output of `adjustConfidenceWithSentiment`. -/
structure ConfAdj where
  original : ℚ
  adjusted : ℚ
  sentimentImpact : ℚ
  sentimentScore : ℚ
deriving DecidableEq, Repr

/-- `adjustConfidenceWithSentiment(baseConfidence, sentiment)`. -/
def adjustConfidenceWithSentiment (baseConfidence : ℚ)
    (sentiment : CombinedSentiment) : ConfAdj :=
  ⟨baseConfidence, jsMax 0 (jsMin 100 (baseConfidence + sentiment.impact)),
    sentiment.impact, sentiment.score⟩

/- ================= ultra-algorithm.js ================= -/

/-- Trade-signal direction. -/
inductive SigDir where
  | BUY
  | SELL
  | HOLD
deriving DecidableEq, Repr

/-- The five analysis results `generateUltraTradingSignal` combines (its
local variables `basicIndicators`, `advancedIndicators`, `sentiment`,
`volumeAnalysis`, `prediction`). -/
structure UltraBundle where
  basic : BasicIndicators
  adv : AdvancedIndicators
  sentiment : CombinedSentiment
  volume : VolumeAnalysis
  prediction : Prediction
deriving DecidableEq, Repr

/-- The `bullishScore` accumulated by `generateUltraTradingSignal`
(each summand is one `bullishScore += n` site, in source order). -/
def bullishScoreOf (b : UltraBundle) : ℚ :=
  (if b.basic.rsi < 30 then 2
    else if 70 < b.basic.rsi then 0
    else if b.basic.rsi < 40 then 1 else 0) +
  (if 0 < b.basic.macd.histogram ∧ b.basic.macd.signal < b.basic.macd.macd then 2 else 0) +
  (if b.basic.price < b.basic.bollinger.lower then 2 else 0) +
  (if b.adv.ichimoku.signal = .BULLISH then 3 else 0) +
  (if b.adv.stochRSI.signal = .BULLISH then 3 else 0) +
  (if (b.adv.adx.trend = .STRONG ∨ b.adv.adx.trend = .VERY_STRONG) ∧
      b.adv.adx.minusDI < b.adv.adx.plusDI then 3 else 0) +
  (if b.adv.obv.trend = .BULLISH then 2 else 0) +
  (if b.adv.fibonacci.signal = .BULLISH then 2 else 0) +
  (if b.volume.profile.signal = .BULLISH then 3 else 0) +
  (if b.volume.orderFlow.pressure = .STRONG_BUY ∨
      b.volume.orderFlow.pressure = .BUY then 3 else 0) +
  (if b.volume.supportResistance.signal = .NEAR_SUPPORT then 2 else 0) +
  (if b.sentiment.overall = .very_positive then 4
    else if b.sentiment.overall = .positive then 3 else 0) +
  (if b.prediction.direction = .bullish ∧ 60 < b.prediction.confidence then 3 else 0)

/-- The `bearishScore` accumulated by `generateUltraTradingSignal`. -/
def bearishScoreOf (b : UltraBundle) : ℚ :=
  (if b.basic.rsi < 30 then 0
    else if 70 < b.basic.rsi then 2
    else if b.basic.rsi < 40 then 0
    else if 60 < b.basic.rsi then 1 else 0) +
  (if b.basic.macd.histogram < 0 ∧ b.basic.macd.macd < b.basic.macd.signal then 2 else 0) +
  (if b.basic.bollinger.upper < b.basic.price then 2 else 0) +
  (if b.adv.ichimoku.signal = .BEARISH then 3 else 0) +
  (if b.adv.stochRSI.signal = .BEARISH then 3 else 0) +
  (if (b.adv.adx.trend = .STRONG ∨ b.adv.adx.trend = .VERY_STRONG) ∧
      ¬ b.adv.adx.minusDI < b.adv.adx.plusDI then 3 else 0) +
  (if b.adv.obv.trend = .BEARISH then 2 else 0) +
  (if b.adv.fibonacci.signal = .BEARISH then 2 else 0) +
  (if b.volume.profile.signal = .BEARISH then 3 else 0) +
  (if b.volume.orderFlow.pressure = .STRONG_SELL ∨
      b.volume.orderFlow.pressure = .SELL then 3 else 0) +
  (if b.volume.supportResistance.signal = .NEAR_RESISTANCE then 2 else 0) +
  (if b.sentiment.overall = .very_negative then 4
    else if b.sentiment.overall = .negative then 3 else 0) +
  (if b.prediction.direction = .bearish ∧ 60 < b.prediction.confidence then 3 else 0)

/-- The signal record `generateUltraTradingSignal` returns.  The `reason`
strings and the `details` echo of the inputs are omitted; `bullishScore` and
`bearishScore` (part of `details`) are kept as the score breakdown. -/
structure UltraSignal where
  signal : SigDir
  confidence : ℚ
  score : ℚ
  bullishScore : ℚ
  bearishScore : ℚ
deriving DecidableEq, Repr

/-- The quality gates and final decision of `generateUltraTradingSignal`
(source lines 173-240), as a function of the analysis bundle. -/
def ultraDecision (b : UltraBundle) : UltraSignal :=
  let bullishScore := bullishScoreOf b
  let bearishScore := bearishScoreOf b
  if b.volume.liquidity.score < 40 then
    ⟨.HOLD, 20, 0, bullishScore, bearishScore⟩
  else if b.adv.adx.trend = .WEAK then
    ⟨.HOLD, 25, 0, bullishScore, bearishScore⟩
  else
    let minScore : ℚ := 12
    let sbc : SigDir × ℚ × ℚ :=
      if minScore ≤ bullishScore ∧ bearishScore + 3 < bullishScore then
        (.BUY, bullishScore, jsMin 95 (40 + bullishScore * 2))
      else if minScore ≤ bearishScore ∧ bullishScore + 3 < bearishScore then
        (.SELL, bearishScore, jsMin 95 (40 + bearishScore * 2))
      else
        (.HOLD, jsMax bullishScore bearishScore, 30)
    let confidenceAdjustment := adjustConfidenceWithSentiment sbc.2.2 b.sentiment
    ⟨sbc.1, jsRound confidenceAdjustment.adjusted, sbc.2.1, bullishScore, bearishScore⟩

/-- `generateUltraTradingSignal(symbol, candles)`.  The stream `r` models the
`Math.random()` draws consumed by the internal sentiment analysis (the only
nondeterministic input); everything else is computed from `candles`. -/
def generateUltraTradingSignal (r : ℕ → ℚ) (symbol : String)
    (candles : List Candle) : UltraSignal :=
  let basicIndicators :=
    { analyzeIndicators candles with price := (lastCandle candles).close }
  ultraDecision
    { basic := basicIndicators
      adv := analyzeAdvancedIndicators candles
      sentiment := analyzeCombinedSentiment r symbol
      volume := analyzeCompleteVolume candles
      prediction := predictPrice (candles.map (·.close)) }

/- ================= risk-manager.js ================= -/

/-- The `MIN_QUANTITIES[symbol] || 0.001` static lookup. -/
def minQtyLookup (symbol : String) : ℚ :=
  if symbol = "BTCUSDT" then 1/1000
  else if symbol = "ETHUSDT" then 1/100
  else if symbol = "BNBUSDT" then 1/100
  else if symbol = "SOLUSDT" then 1/10
  else if symbol = "XRPUSDT" then 10
  else if symbol = "ADAUSDT" then 10
  else if symbol = "DOGEUSDT" then 100
  else if symbol = "LINKUSDT" then 1
  else if symbol = "AVAXUSDT" then 1/10
  else if symbol = "MATICUSDT" then 10
  else if symbol = "LTCUSDT" then 1/10
  else if symbol = "UNIUSDT" then 1
  else if symbol = "ATOMUSDT" then 1
  else if symbol = "APTUSDT" then 1
  else if symbol = "FILUSDT" then 1
  else 1/1000

/-- Output of `calculateOptimalRisk` (the log-only `reason`, `minQuantity`
and `usedMinimum` fields are omitted; the rejection branch has `riskPercent`,
`quantity` and `estimatedCost` all 0 as in the source). -/
structure RiskCalc where
  canTrade : Bool
  riskPercent : ℚ
  quantity : ℚ
  estimatedCost : ℚ
deriving DecidableEq, Repr

/-- `calculateOptimalRisk(symbol, price, totalBalance, leverage = 1)`. -/
def calculateOptimalRisk (symbol : String) (price totalBalance : ℚ)
    (leverage : ℚ := 1) : RiskCalc :=
  let minQty := minQtyLookup symbol
  let minCost := minQty * price / leverage
  let minRiskPercent := minCost / totalBalance * 100
  if minRiskPercent ≤ 5 ∨ minRiskPercent ≤ 20 then
    let optimalRiskPercent : ℚ := if minRiskPercent ≤ 5 then 5 else jsCeil minRiskPercent
    let riskAmount := totalBalance * (optimalRiskPercent / 100)
    let quantity := riskAmount * leverage / price
    let finalQuantity := jsMax quantity minQty
    let finalCost := finalQuantity * price / leverage
    ⟨true, finalCost / totalBalance * 100, finalQuantity, finalCost⟩
  else ⟨false, 0, 0, 0⟩

/-- Position side. -/
inductive Side where
  | Buy
  | Sell
deriving DecidableEq, Repr

/-- An open position as consumed by the risk manager and the monitor
(`entryPrice`, `quantity`, `leverage`, the protective levels, and the
price/PnL snapshot returned by `getOpenPositions`). -/
structure Position where
  symbol : String
  side : Side
  entryPrice : ℚ
  quantity : ℚ
  leverage : ℚ
  stopLoss : ℚ
  takeProfit : ℚ
  currentPrice : ℚ
  unrealizedPnl : ℚ
  unrealizedPnlPercent : ℚ
deriving DecidableEq, Repr

/-- `calculateUsedBalance(openPositions)` (`pos.leverage || 1`). -/
def calculateUsedBalance (openPositions : List Position) : ℚ :=
  openPositions.foldl
    (fun total pos => total + pos.quantity * pos.entryPrice / jsOr pos.leverage 1) 0

/-- A scored signal as produced by `analyzeSymbol` (timestamp, reasons and
the `details` echo are omitted). -/
structure TradeSignal where
  symbol : String
  price : ℚ
  signal : SigDir
  confidence : ℚ
  leverage : ℚ
deriving DecidableEq, Repr

/-- `prioritizeSignals(signals)`: sort by confidence, descending (JS
`Array.prototype.sort` is stable; modelled by a stable insertion sort). -/
def prioritizeSignals (signals : List TradeSignal) : List TradeSignal :=
  sortDescBy (·.confidence) signals

/-- A selected trade: the signal spread together with the risk fields
(` { ...signal, riskPercent, quantity, estimatedCost } `, modelled as a
nested record). -/
structure SelectedTrade where
  sig : TradeSignal
  riskPercent : ℚ
  quantity : ℚ
  estimatedCost : ℚ
deriving DecidableEq, Repr

/-- The selection loop of `selectTradesToExecute`, carrying `currentUsed`. -/
def selectLoop (totalBalance : ℚ) : List TradeSignal → ℚ → List SelectedTrade
  | [], _ => []
  | s :: rest, currentUsed =>
    let risk := calculateOptimalRisk s.symbol s.price totalBalance s.leverage
    if risk.canTrade = false then selectLoop totalBalance rest currentUsed
    else if risk.estimatedCost ≤ totalBalance - currentUsed then
      ⟨s, risk.riskPercent, risk.quantity, risk.estimatedCost⟩ ::
        selectLoop totalBalance rest (currentUsed + risk.estimatedCost)
    else selectLoop totalBalance rest currentUsed

/-- `selectTradesToExecute(signals, totalBalance, openPositions)`. -/
def selectTradesToExecute (signals : List TradeSignal) (totalBalance : ℚ)
    (openPositions : List Position) : List SelectedTrade :=
  selectLoop totalBalance (prioritizeSignals signals) (calculateUsedBalance openPositions)

/- ================= intelligent-trading-engine.js ================= -/

/-- The learned parameter set (`learningData.current_parameters`). -/
structure LearnedParams where
  confidence_threshold : ℚ
  stop_loss_percent : ℚ
  take_profit_percent : ℚ
  max_trades_per_day : ℚ
  risk_per_trade : ℚ
deriving DecidableEq, Repr

/-- `calculateLeverage(confidence, parameters)` of the intelligent engine
(`parameters.confidence_threshold || 70`). -/
def calculateLeverage (confidence : ℚ) (parameters : LearnedParams) : ℚ :=
  let threshold := jsOr parameters.confidence_threshold 70
  if confidence < threshold then 0
  else if confidence < threshold + 5 then 2
  else if confidence < threshold + 10 then 3
  else if confidence < threshold + 15 then 5
  else if confidence < threshold + 20 then 7
  else if confidence < threshold + 25 then 8
  else 10

/-- The signal filter the orchestrator applies before risk selection
(`signals.filter(s => s.signal !== 'HOLD' && s.leverage > 0)`). -/
def filterValidSignals (signals : List TradeSignal) : List TradeSignal :=
  signals.filter (fun s => decide (s.signal ≠ SigDir.HOLD) && decide ((0:ℚ) < s.leverage))

/-- The pure core of `analyzeSymbol`: package a non-HOLD ultra signal with
the current price and the leverage derived from the learned parameters. -/
def analyzeSymbolPure (symbol : String) (price : ℚ) (sig : UltraSignal)
    (parameters : LearnedParams) : Option TradeSignal :=
  if sig.signal = .HOLD then none
  else some ⟨symbol, price, sig.signal, sig.confidence,
    calculateLeverage sig.confidence parameters⟩

/-- Trade-record status ('open' | 'closed'). -/
inductive TStatus where
  | opened
  | closed
deriving DecidableEq, Repr

/-- A trade record in `tradingState.trades` (the fields the monitor and the
performance analyzer read). -/
structure TradeRec where
  symbol : String
  pnl : ℚ
  pnlPercent : ℚ
  exitPrice : ℚ
  status : TStatus
deriving DecidableEq, Repr

/-- Close the first open trade with the position's symbol, recording the
exit snapshot (the `findIndex` + in-place update of `monitorPositions`). -/
def closeFirstOpenTrade (pos : Position) : List TradeRec → List TradeRec
  | [] => []
  | t :: ts =>
    if t.symbol = pos.symbol ∧ t.status = .opened then
      { t with
        exitPrice := pos.currentPrice
        pnl := pos.unrealizedPnl
        pnlPercent := pos.unrealizedPnlPercent
        status := .closed } :: ts
    else t :: closeFirstOpenTrade pos ts

/-- Result of one `monitorPositions` pass: the position list stored back
into `tradingState.positions`, the updated trade history, and the
`closePosition` requests issued. -/
structure MonitorResult where
  positions : List Position
  trades : List TradeRec
  closeRequests : List (String × Side)
deriving DecidableEq, Repr

/-- `monitorPositions(parameters)` on a fetched position list.  The
trailing-stop branch of the source (`if (pnlPercent > 10)`) only logs — its
body is the comment `Implementar lógica de trailing stop aqui` — so positions
pass through unmodified; only SL/TP threshold crossings produce close
requests and trade updates. -/
def monitorPositions (parameters : LearnedParams) (positions : List Position)
    (trades : List TradeRec) : MonitorResult :=
  let stopLossPercent := -(jsOr parameters.stop_loss_percent 5)
  let takeProfitPercent := jsOr parameters.take_profit_percent 15
  let tc := positions.foldl (fun (acc : List TradeRec × List (String × Side)) pos =>
    let pnlPercent := pos.unrealizedPnlPercent
    if pnlPercent ≤ stopLossPercent ∨ takeProfitPercent ≤ pnlPercent then
      (closeFirstOpenTrade pos acc.1, acc.2 ++ [(pos.symbol, pos.side)])
    else acc) (trades, [])
  ⟨positions, tc.1, tc.2⟩

/-- The instrument universe of `runIntelligentTradingCycle`. -/
def baseSymbols : List String :=
  ["BTCUSDT", "ETHUSDT", "BNBUSDT", "SOLUSDT", "XRPUSDT", "ADAUSDT",
    "DOGEUSDT", "LINKUSDT", "AVAXUSDT", "MATICUSDT", "LTCUSDT", "UNIUSDT",
    "ATOMUSDT", "APTUSDT", "FILUSDT"]

/-- The universe construction of `runIntelligentTradingCycle`: drop disabled
coins, then front-load the prioritized ones. -/
def activeSymbols (disabledCoins prioritizedCoins : List String) : List String :=
  let symbols := baseSymbols.filter (fun s => !(disabledCoins.contains s))
  if prioritizedCoins.isEmpty then symbols
  else
    prioritizedCoins.filter (fun s => symbols.contains s) ++
      symbols.filter (fun s => !(prioritizedCoins.contains s))

/- ================= performance-analyzer.js ================= -/

/-- Per-coin aggregate of `analyzeRecentPerformance` (`coin_performance`
entries; `roi` duplicates `total_pnl` in the source). -/
structure CoinStats where
  trades : ℕ
  wins : ℕ
  losses : ℕ
  total_pnl : ℚ
  win_rate : ℚ
deriving DecidableEq, Repr

/-- The per-symbol statistics accumulated by `analyzeRecentPerformance`
lines 86-111.  The source folds over the closed trades building one entry
per symbol: counts, win/loss split (`pnl > 0` wins, the rest losses), summed
PnL, and `win_rate = wins / trades * 100`.  The filter-based rendering below
computes the same values symbol by symbol. -/
def coinPerformance (closedTrades : List TradeRec) (symbol : String) : CoinStats :=
  let ts := closedTrades.filter (fun t => t.symbol == symbol)
  let trades := ts.length
  let wins := (ts.filter (fun t => decide ((0:ℚ) < t.pnl))).length
  let losses := (ts.filter (fun t => decide (¬ (0:ℚ) < t.pnl))).length
  let total_pnl := sumQ (ts.map (·.pnl))
  ⟨trades, wins, losses, total_pnl,
    if 0 < trades then (wins : ℚ) / (trades : ℚ) * 100 else 0⟩

/-- Fuel-based core of `dedupFirst` (structural recursion so that concrete
evaluations reduce; fuel bounded below by the list length never runs out,
since filtering only shortens the tail). -/
def dedupFirstAux : ℕ → List String → List String
  | 0, _ => []
  | _, [] => []
  | n + 1, x :: xs => x :: dedupFirstAux n (xs.filter (fun y => y ≠ x))

/-- First-occurrence deduplication (JS object keys keep insertion order). -/
def dedupFirst (l : List String) : List String := dedupFirstAux l.length l

/-- The performance report of `analyzeRecentPerformance` (the fields read by
`identifyIssuesAndOpportunities`).  The input list is the 24-hour window of
trades; `closed` below is its `status === 'closed'` subset, exactly as in
the source (the wall-clock windowing itself happens upstream of this
report and is outside the embedding). -/
structure Performance where
  total_trades : ℕ
  win_rate : ℚ
  roi : ℚ
  coin_performance : List (String × CoinStats)
deriving DecidableEq, Repr

/-- `analyzeRecentPerformance(trades)` on the recent-trade window. -/
def analyzeRecentPerformance (recentTrades : List TradeRec) : Performance :=
  let closedTrades := recentTrades.filter (fun t => t.status == TStatus.closed)
  let winningTrades := closedTrades.filter (fun t => decide ((0:ℚ) < t.pnl))
  let winRate := if 0 < closedTrades.length then
    (winningTrades.length : ℚ) / (closedTrades.length : ℚ) * 100 else 0
  let totalPnl := sumQ (closedTrades.map (·.pnl))
  { total_trades := recentTrades.length
    win_rate := winRate
    roi := totalPnl
    coin_performance := (dedupFirst (closedTrades.map (·.symbol))).map
      (fun s => (s, coinPerformance closedTrades s)) }

/-- A recommendation produced by `identifyIssuesAndOpportunities`.
`apply_pattern_insight` carries the pattern type and suggested value
(`suggestedValue = 0` models an absent/falsy suggestion). -/
inductive Recommendation where
  | increase_threshold (from_ to_ : ℚ)
  | reduce_trading_frequency (from_ to_ : ℚ)
  | disable_coin (symbol : String)
  | prioritize_coin (symbol : String)
  | pause_trading
  | apply_pattern_insight (ptype : String) (suggestedValue : ℚ)
deriving DecidableEq, Repr

/-- The recommendation list built by `identifyIssuesAndOpportunities`:
high-priority pattern-analyzer insights first, then the four decision rules
(low win rate, overtrading, per-coin disable/prioritize in
`coin_performance` order, negative ROI). -/
def identifyIssuesAndOpportunities (patternRecs : List Recommendation)
    (performance : Performance) (cur : LearnedParams) : List Recommendation :=
  patternRecs ++
  (if performance.win_rate < 45 then
    [Recommendation.increase_threshold cur.confidence_threshold
      (cur.confidence_threshold + 5)] else []) ++
  (if 50 < performance.total_trades then
    [Recommendation.reduce_trading_frequency cur.max_trades_per_day 30] else []) ++
  performance.coin_performance.flatMap (fun p =>
    (if 3 ≤ p.2.trades ∧ p.2.win_rate < 30 then
      [Recommendation.disable_coin p.1] else []) ++
    (if 3 ≤ p.2.trades ∧ 65 < p.2.win_rate ∧ 0 < p.2.total_pnl then
      [Recommendation.prioritize_coin p.1] else [])) ++
  (if performance.roi < 0 then [Recommendation.pause_trading] else [])

/-- The learner's mutable state (`learningData`; the audit-log arrays are
omitted). -/
structure LearningData where
  disabled_coins : List String
  prioritized_coins : List String
  current_parameters : LearnedParams
deriving DecidableEq, Repr

/-- The `learningData` defaults installed when no learning file exists. -/
def defaultLearningData : LearningData :=
  ⟨[], ["BTCUSDT", "ETHUSDT"], ⟨70, 5, 15, 50, 15⟩⟩

/-- `applyOptimization(recommendation)`: the state transition on
`learningData`.  Recommended values are written verbatim — no branch
validates or clamps them. -/
def applyOptimization (data : LearningData) (rec : Recommendation) : LearningData :=
  match rec with
  | .increase_threshold _ to_ =>
    { data with current_parameters :=
      { data.current_parameters with confidence_threshold := to_ } }
  | .reduce_trading_frequency _ to_ =>
    { data with current_parameters :=
      { data.current_parameters with max_trades_per_day := to_ } }
  | .disable_coin symbol =>
    if data.disabled_coins.contains symbol then data
    else { data with disabled_coins := data.disabled_coins ++ [symbol] }
  | .prioritize_coin symbol =>
    if data.prioritized_coins.contains symbol then data
    else { data with prioritized_coins := data.prioritized_coins ++ [symbol] }
  | .pause_trading => data
  | .apply_pattern_insight ptype suggestedValue =>
    if ptype = "threshold" ∧ suggestedValue ≠ 0 then
      { data with current_parameters :=
        { data.current_parameters with confidence_threshold := suggestedValue } }
    else data

/-- `applyOptimizations(recommendations)`: apply each in order. -/
def applyOptimizations (data : LearningData) (recs : List Recommendation) : LearningData :=
  recs.foldl applyOptimization data

/-- One `runPerformanceAnalysis` round on a fixed trade window: analyze,
identify, apply (pattern recommendations empty). -/
def performanceRound (trades : List TradeRec) (data : LearningData) : LearningData :=
  applyOptimizations data
    (identifyIssuesAndOpportunities [] (analyzeRecentPerformance trades)
      data.current_parameters)

/- ================= derived definitions and concrete inputs ================= -/

/-- Total estimated capital cost of a selected-trade list. -/
def sumCosts (l : List SelectedTrade) : ℚ := (l.map (·.estimatedCost)).sum

/-- The `baseConfidence` chosen by the final decision of
`generateUltraTradingSignal` (source lines 203-220), as a function of the two
scores. -/
def ultraBase (bu be : ℚ) : ℚ :=
  if 12 ≤ bu ∧ be + 3 < bu then jsMin 95 (40 + bu * 2)
  else if 12 ≤ be ∧ bu + 3 < be then jsMin 95 (40 + be * 2)
  else 30

/-- The default learned parameters (`current_parameters` defaults). -/
def defaultParameters : LearnedParams := ⟨70, 5, 15, 50, 15⟩

/-- A 20-bar steadily rising window (close `101 + i`, range `99+i .. 102+i`,
constant volume): long enough for the liquidity and ADX quality gates to
pass, so the sentiment draws reach the final decision. -/
def trendCandles : List Candle :=
  (List.range 20).map (fun i => ⟨100 + i, 102 + i, 99 + i, 101 + i, 1000⟩)

/-- A `Math.random()` stream that always returns 0 (news and social both
land in their most positive branch). -/
def rngZero : ℕ → ℚ := fun _ => 0

/-- A `Math.random()` stream that always returns 1/2 (news and social both
land in their neutral branch). -/
def rngHalf : ℕ → ℚ := fun _ => 1/2

/-- A stream that agrees with `rngZero` on the eight draws the sentiment
analysis consumes but differs afterwards. -/
def rngZeroTail : ℕ → ℚ := fun i => if i < 8 then 0 else 1/3

/-- A handcrafted analysis bundle that passes both quality gates with
`bullishScore = 13` and `bearishScore = 0` under neutral sentiment. -/
def bundleBuy : UltraBundle :=
  { basic :=
      { price := 100, rsi := 25, macd := ⟨1, 0, 1⟩, bollinger := ⟨200, 150, 90⟩
        sma20 := 100, sma50 := 100, atr := 1, stochastic := ⟨50, 50⟩
        avgVolume := 1000, currentVolume := 1000, trend := .neutral }
    adv :=
      { ichimoku := ⟨0, 0, 0, 0, 0, .BULLISH⟩, stochRSI := ⟨50, 50, .BULLISH⟩
        adx := ⟨30, 20, 10, .STRONG⟩, obv := ⟨0, .NEUTRAL⟩
        fibonacci := ⟨0, 0, 0, 0, 0, 0, 0, .NEUTRAL⟩ }
    sentiment :=
      { overall := .neutral, score := 50, impact := 0
        news := ⟨.neutral, 50, 50, 10⟩, social := ⟨.neutral, 50, 1000, 100⟩
        confidence := 50 }
    volume :=
      { profile := ⟨0, 0, 0, .NEUTRAL⟩, orderFlow := ⟨0, 0, 1, .NEUTRAL⟩
        supportResistance := ⟨[], [], 0, 0, .NEUTRAL⟩
        liquidity := ⟨1000, 1000, .NORMAL, 60⟩ }
    prediction := ⟨100, 0, .neutral⟩ }

/-- `bundleBuy` with one extra bullish factor (OBV), raising the bullish
score from 13 to 15. -/
def bundleBuy15 : UltraBundle :=
  { bundleBuy with adv := { bundleBuy.adv with obv := ⟨0, .BULLISH⟩ } }

/-- Ten closed XRPUSDT trades with 2 wins and 8 losses (win rate 20%). -/
def trades10 : List TradeRec :=
  [⟨"XRPUSDT", 1, 1, 25, .closed⟩, ⟨"XRPUSDT", 1, 1, 25, .closed⟩,
    ⟨"XRPUSDT", -1, -1, 25, .closed⟩, ⟨"XRPUSDT", -1, -1, 25, .closed⟩,
    ⟨"XRPUSDT", -1, -1, 25, .closed⟩, ⟨"XRPUSDT", -1, -1, 25, .closed⟩,
    ⟨"XRPUSDT", -1, -1, 25, .closed⟩, ⟨"XRPUSDT", -1, -1, 25, .closed⟩,
    ⟨"XRPUSDT", -1, -1, 25, .closed⟩, ⟨"XRPUSDT", -1, -1, 25, .closed⟩]

/-- A Buy position with 12% unrealized profit (above the 10% trailing-stop
threshold, below the 15% take-profit), stop level at 95. -/
def profitPos : Position :=
  ⟨"BTCUSDT", .Buy, 100, 1, 1, 95, 115, 112, 12, 12⟩

/-- A below-threshold signal (confidence 65 < 70): `calculateLeverage`
assigns it leverage 0. -/
def weakSignal : TradeSignal :=
  ⟨"BTCUSDT", 100000, .BUY, 65, calculateLeverage 65 defaultParameters⟩

/-- An above-threshold signal (confidence 80). -/
def strongSignal : TradeSignal :=
  ⟨"BTCUSDT", 100000, .BUY, 80, calculateLeverage 80 defaultParameters⟩

/-- An XRPUSDT signal whose exchange-minimum quantity (10 XRP at price 25
with leverage 1) needs 25% of a 1000-unit balance — above the 20% ceiling. -/
def oversizedSignal : TradeSignal :=
  ⟨"XRPUSDT", 25, .SELL, 90, 1⟩

/- ================= shared lemmas ================= -/

theorem ratFloor_eq_intFloor (q : ℚ) : (Rat.floor q : ℤ) = ⌊q⌋ := by
  rw [Rat.floor_def]
  unfold Rat.floor
  split
  · rename_i h
    rw [h]
    simp
  · rfl

theorem jsFloor_mono {a b : ℚ} (h : a ≤ b) : jsFloor a ≤ jsFloor b := by
  unfold jsFloor
  rw [ratFloor_eq_intFloor, ratFloor_eq_intFloor]
  exact_mod_cast Int.floor_le_floor h

theorem jsRound_mono {a b : ℚ} (h : a ≤ b) : jsRound a ≤ jsRound b :=
  jsFloor_mono (by linarith)

theorem jsRound_nonneg {x : ℚ} (h : 0 ≤ x) : 0 ≤ jsRound x := by
  unfold jsRound jsFloor
  rw [ratFloor_eq_intFloor]
  have : (0 : ℤ) ≤ ⌊x + 1/2⌋ := Int.le_floor.mpr (by push_cast; linarith)
  exact_mod_cast this

theorem jsRound_le_100 {x : ℚ} (h : x ≤ 100) : jsRound x ≤ 100 := by
  have h1 : jsRound x ≤ jsRound 100 := jsRound_mono h
  have h2 : jsRound (100 : ℚ) = 100 := by decide
  linarith [h1, h2.le]

theorem mem_insertDescBy (key : α → ℚ) (x a : α) (l : List α) :
    a ∈ insertDescBy key x l ↔ a = x ∨ a ∈ l := by
  induction l with
  | nil => simp [insertDescBy]
  | cons y ys ih =>
    simp only [insertDescBy]
    split
    · simp [List.mem_cons]
    · simp only [List.mem_cons, ih]
      tauto

theorem mem_sortDescBy (key : α → ℚ) (a : α) (l : List α) :
    a ∈ sortDescBy key l ↔ a ∈ l := by
  induction l with
  | nil => simp [sortDescBy]
  | cons x xs ih => simp [sortDescBy, mem_insertDescBy, ih, List.mem_cons]

theorem calculateLeverage_eq_zero_iff (parameters : LearnedParams)
    (h : parameters.confidence_threshold ≠ 0) (c : ℚ) :
    calculateLeverage c parameters = 0 ↔ c < parameters.confidence_threshold := by
  unfold calculateLeverage jsOr
  rw [if_neg h]
  dsimp only
  split_ifs <;> simp_all

theorem calculateLeverage_mem (parameters : LearnedParams) (c : ℚ)
    (h : ¬ calculateLeverage c parameters = 0) :
    calculateLeverage c parameters ∈ ([2, 3, 5, 7, 8, 10] : List ℚ) := by
  unfold calculateLeverage at *
  dsimp only at *
  split_ifs at * <;> simp_all

theorem calculateLeverage_mono (parameters : LearnedParams) {c₁ c₂ : ℚ}
    (h : c₁ ≤ c₂) : calculateLeverage c₁ parameters ≤ calculateLeverage c₂ parameters := by
  unfold calculateLeverage
  dsimp only
  split_ifs <;> first | rfl | linarith

theorem selectLoop_mem (totalBalance : ℚ) :
    ∀ (l : List TradeSignal) (currentUsed : ℚ) (t : SelectedTrade),
      t ∈ selectLoop totalBalance l currentUsed →
      t.sig ∈ l ∧
        (calculateOptimalRisk t.sig.symbol t.sig.price totalBalance t.sig.leverage).canTrade = true := by
  intro l
  induction l with
  | nil => intro _ _ h; simp [selectLoop] at h
  | cons s rest ih =>
    intro currentUsed t h
    simp only [selectLoop] at h
    split_ifs at h with h1 h2
    · have := ih _ _ h
      exact ⟨List.mem_cons_of_mem _ this.1, this.2⟩
    · rcases List.mem_cons.mp h with h3 | h3
      · subst h3
        refine ⟨List.mem_cons_self _ _, ?_⟩
        simpa using h1
      · have := ih _ _ h3
        exact ⟨List.mem_cons_of_mem _ this.1, this.2⟩
    · have := ih _ _ h
      exact ⟨List.mem_cons_of_mem _ this.1, this.2⟩

theorem selectTradesToExecute_mem (signals : List TradeSignal) (totalBalance : ℚ)
    (openPositions : List Position) (t : SelectedTrade)
    (h : t ∈ selectTradesToExecute signals totalBalance openPositions) :
    t.sig ∈ signals ∧
      (calculateOptimalRisk t.sig.symbol t.sig.price totalBalance t.sig.leverage).canTrade = true := by
  unfold selectTradesToExecute at h
  have := selectLoop_mem totalBalance _ _ _ h
  exact ⟨(mem_sortDescBy _ _ _).mp ((by simpa [prioritizeSignals] using this.1)), this.2⟩

theorem selectLoop_budget_prefix (totalBalance : ℚ) :
    ∀ (l : List TradeSignal) (currentUsed : ℚ), currentUsed ≤ totalBalance →
      ∀ n : ℕ, currentUsed + sumCosts ((selectLoop totalBalance l currentUsed).take n)
        ≤ totalBalance := by
  intro l
  induction l with
  | nil =>
    intro cu h n
    simpa [selectLoop, sumCosts] using h
  | cons s rest ih =>
    intro cu h n
    simp only [selectLoop]
    split_ifs with h1 h2
    · exact ih cu h n
    · have hstep : cu + (calculateOptimalRisk s.symbol s.price totalBalance
          s.leverage).estimatedCost ≤ totalBalance := by linarith
      match n with
      | 0 => simpa [sumCosts] using h
      | m + 1 =>
        have := ih _ hstep m
        simp only [sumCosts, List.take_succ_cons, List.map_cons, List.sum_cons] at *
        linarith
    · exact ih cu h n

theorem selectLoop_budget (totalBalance : ℚ) :
    ∀ (l : List TradeSignal) (currentUsed : ℚ), currentUsed ≤ totalBalance →
      currentUsed + sumCosts (selectLoop totalBalance l currentUsed) ≤ totalBalance := by
  intro l
  induction l with
  | nil => intro cu h; simpa [selectLoop, sumCosts] using h
  | cons s rest ih =>
    intro cu h
    simp only [selectLoop]
    split_ifs with h1 h2
    · exact ih cu h
    · have hstep : cu + (calculateOptimalRisk s.symbol s.price totalBalance s.leverage).estimatedCost ≤ totalBalance := by
        linarith
      have := ih _ hstep
      simp only [sumCosts, List.map_cons, List.sum_cons] at *
      linarith
    · exact ih cu h

theorem mem_dedupFirstAux (a : String) :
    ∀ (n : ℕ) (l : List String), l.length ≤ n → (a ∈ dedupFirstAux n l ↔ a ∈ l) := by
  intro n
  induction n with
  | zero =>
    intro l hl
    have : l = [] := List.eq_nil_of_length_eq_zero (Nat.le_zero.mp hl)
    subst this
    simp [dedupFirstAux]
  | succ n ih =>
    intro l hl
    match l with
    | [] => simp [dedupFirstAux]
    | x :: xs =>
      rw [dedupFirstAux]
      have hlen : (xs.filter (fun y => y ≠ x)).length ≤ n :=
        le_trans (List.length_filter_le _ _) (Nat.le_of_succ_le_succ hl)
      simp only [List.mem_cons, ih _ hlen, List.mem_filter]
      constructor
      · rintro (h | ⟨h, _⟩)
        · exact Or.inl h
        · exact Or.inr h
      · rintro (h | h)
        · exact Or.inl h
        · by_cases hx : a = x
          · exact Or.inl hx
          · exact Or.inr ⟨h, by simpa using hx⟩

theorem mem_dedupFirst (a : String) (l : List String) :
    a ∈ dedupFirst l ↔ a ∈ l :=
  mem_dedupFirstAux a l.length l le_rfl

theorem coinPerformance_mem_symbols (closedTrades : List TradeRec) (X : String)
    (h : 0 < (coinPerformance closedTrades X).trades) :
    X ∈ closedTrades.map (·.symbol) := by
  unfold coinPerformance at h
  dsimp only at h
  rcases List.exists_mem_of_length_pos h with ⟨t, ht⟩
  rcases List.mem_filter.mp ht with ⟨htl, hts⟩
  have : t.symbol = X := by simpa using hts
  exact this ▸ List.mem_map_of_mem _ htl

theorem disable_mem_identify (patternRecs : List Recommendation)
    (performance : Performance) (cur : LearnedParams) (X : String) (st : CoinStats)
    (hmem : (X, st) ∈ performance.coin_performance)
    (h3 : 3 ≤ st.trades) (hwr : st.win_rate < 30) :
    Recommendation.disable_coin X ∈
      identifyIssuesAndOpportunities patternRecs performance cur := by
  unfold identifyIssuesAndOpportunities
  refine List.mem_append_left _ (List.mem_append_right _ ?_)
  refine List.mem_flatMap.mpr ⟨(X, st), hmem, ?_⟩
  rw [if_pos ⟨h3, hwr⟩]
  simp

theorem disabled_mono_applyOptimization (data : LearningData) (rec : Recommendation)
    (s : String) (h : s ∈ data.disabled_coins) :
    s ∈ (applyOptimization data rec).disabled_coins := by
  cases rec <;> simp only [applyOptimization] <;>
    first
      | exact h
      | (split <;> simp [h])

theorem disabled_mem_applyOptimization (data : LearningData) (s : String) :
    s ∈ (applyOptimization data (Recommendation.disable_coin s)).disabled_coins := by
  simp only [applyOptimization]
  split
  · rename_i hc
    simpa [List.contains, List.elem_iff] using hc
  · simp

theorem disabled_mem_applyOptimizations (data : LearningData)
    (recs : List Recommendation) (s : String)
    (h : Recommendation.disable_coin s ∈ recs ∨ s ∈ data.disabled_coins) :
    s ∈ (applyOptimizations data recs).disabled_coins := by
  induction recs generalizing data with
  | nil =>
    rcases h with h | h
    · simp at h
    · simpa [applyOptimizations] using h
  | cons r rs ih =>
    simp only [applyOptimizations, List.foldl_cons] at *
    rcases h with h | h
    · rcases List.mem_cons.mp h with h1 | h1
      · exact ih _ (Or.inr (h1 ▸ disabled_mem_applyOptimization data s))
      · exact ih _ (Or.inl h1)
    · exact ih _ (Or.inr (disabled_mono_applyOptimization data r s h))

theorem not_mem_activeSymbols (disabledCoins prioritizedCoins : List String)
    (X : String) (h : X ∈ disabledCoins) :
    X ∉ activeSymbols disabledCoins prioritizedCoins := by
  unfold activeSymbols
  intro hmem
  have hbase : ∀ s ∈ baseSymbols.filter (fun s => !(disabledCoins.contains s)), s ∉ disabledCoins := by
    intro s hs
    have := (List.mem_filter.mp hs).2
    simpa using this
  dsimp only at hmem
  split at hmem
  · exact hbase X hmem h
  · rcases List.mem_append.mp hmem with h1 | h1
    · have := (List.mem_filter.mp h1).2
      have hx : X ∈ baseSymbols.filter (fun s => !(disabledCoins.contains s)) := by
        simpa [List.contains, List.elem_iff] using this
      exact hbase X hx h
    · exact hbase X (List.mem_filter.mp h1).1 h

theorem ultraDecision_signal_eq (b : UltraBundle)
    (h1 : 40 ≤ b.volume.liquidity.score) (h2 : b.adv.adx.trend ≠ .WEAK) :
    (ultraDecision b).signal =
      (if 12 ≤ bullishScoreOf b ∧ bearishScoreOf b + 3 < bullishScoreOf b then .BUY
       else if 12 ≤ bearishScoreOf b ∧ bullishScoreOf b + 3 < bearishScoreOf b then .SELL
       else .HOLD) := by
  unfold ultraDecision
  rw [if_neg (not_lt.mpr h1), if_neg h2]
  dsimp only
  split_ifs <;> rfl

theorem ultraDecision_confidence_eq (b : UltraBundle)
    (h1 : 40 ≤ b.volume.liquidity.score) (h2 : b.adv.adx.trend ≠ .WEAK) :
    (ultraDecision b).confidence =
      jsRound (jsMax 0 (jsMin 100
        (ultraBase (bullishScoreOf b) (bearishScoreOf b) + b.sentiment.impact))) := by
  unfold ultraDecision ultraBase adjustConfidenceWithSentiment
  rw [if_neg (not_lt.mpr h1), if_neg h2]
  dsimp only
  split_ifs <;> rfl

theorem clampRound_mono {b₁ b₂ i₁ i₂ : ℚ} (hb : b₁ ≤ b₂) (hi : i₁ ≤ i₂) :
    jsRound (jsMax 0 (jsMin 100 (b₁ + i₁))) ≤ jsRound (jsMax 0 (jsMin 100 (b₂ + i₂))) := by
  unfold jsMax jsMin
  exact jsRound_mono (max_le_max le_rfl (min_le_min le_rfl (add_le_add hb hi)))

theorem clampRound_bounds (z : ℚ) :
    0 ≤ jsRound (jsMax 0 (jsMin 100 z)) ∧ jsRound (jsMax 0 (jsMin 100 z)) ≤ 100 := by
  unfold jsMax jsMin
  constructor
  · exact jsRound_nonneg (le_max_left _ _)
  · exact jsRound_le_100 (max_le (by norm_num) (min_le_left _ _))

theorem ultraBase_mono_bullish {bu₁ bu₂ be₁ be₂ : ℚ}
    (hB₁ : 12 ≤ bu₁ ∧ be₁ + 3 < bu₁) (hB₂ : 12 ≤ bu₂ ∧ be₂ + 3 < bu₂)
    (h : bu₁ ≤ bu₂) : ultraBase bu₁ be₁ ≤ ultraBase bu₂ be₂ := by
  unfold ultraBase jsMin
  rw [if_pos hB₁, if_pos hB₂]
  exact min_le_min le_rfl (by linarith)

/- ================= claims ================= -/

/-- Claim C1, counterexample: `generateUltraTradingSignal` is not a pure
function of `(symbol, candles)`.  On the very same 20-bar window two
invocations that differ only in the hidden `Math.random()` draws of the
internal sentiment analysis return different Signals (confidence 45 vs 30),
so the production scoring path does contain randomness. -/
theorem C1_counterexample :
    (generateUltraTradingSignal rngZero "BTCUSDT" trendCandles).confidence ≠
      (generateUltraTradingSignal rngHalf "BTCUSDT" trendCandles).confidence ∧
    (generateUltraTradingSignal rngZero "BTCUSDT" trendCandles).confidence = 45 ∧
    (generateUltraTradingSignal rngHalf "BTCUSDT" trendCandles).confidence = 30 :=
  ⟨by decide, by decide, by decide⟩

/-- Claim C1 as amended: the Signal Scorer is deterministic given the
sentiment draw — any two invocations whose random streams produce the same
combined-sentiment result yield an identical Signal on identical
`(symbol, candles)`; the randomness enters only through the simulated
sentiment analysis. -/
theorem C1_deterministic_given_sentiment (r₁ r₂ : ℕ → ℚ) (symbol : String)
    (candles : List Candle)
    (h : analyzeCombinedSentiment r₁ symbol = analyzeCombinedSentiment r₂ symbol) :
    generateUltraTradingSignal r₁ symbol candles =
      generateUltraTradingSignal r₂ symbol candles := by
  unfold generateUltraTradingSignal
  rw [h]

/-- Witness for the amended C1: two distinct random streams that agree on
the eight sentiment draws give the same Signal. -/
theorem C1_deterministic_given_sentiment_witness :
    generateUltraTradingSignal rngZero "BTCUSDT" trendCandles =
      generateUltraTradingSignal rngZeroTail "BTCUSDT" trendCandles :=
  C1_deterministic_given_sentiment rngZero rngZeroTail "BTCUSDT" trendCandles (by decide)

/-- Claim C2: below-threshold signals are never executed.  When every signal
carries the leverage `analyzeSymbol` computes for it (`calculateLeverage` of
its confidence), `calculateLeverage` maps every confidence below
`parameters.confidence_threshold` to 0, and after the orchestrator's
`s.leverage > 0` filter no trade selected by `selectTradesToExecute` has a
below-threshold confidence. -/
theorem C2_below_threshold_never_selected (parameters : LearnedParams)
    (signals : List TradeSignal) (totalBalance : ℚ) (openPositions : List Position)
    (hthr : parameters.confidence_threshold ≠ 0)
    (hlev : ∀ s ∈ signals, s.leverage = calculateLeverage s.confidence parameters) :
    (∀ c, c < parameters.confidence_threshold → calculateLeverage c parameters = 0) ∧
    ∀ t ∈ selectTradesToExecute (filterValidSignals signals) totalBalance openPositions,
      ¬ t.sig.confidence < parameters.confidence_threshold := by
  refine ⟨fun c hc => (calculateLeverage_eq_zero_iff parameters hthr c).mpr hc, ?_⟩
  intro t ht
  have hmem := selectTradesToExecute_mem _ _ _ _ ht
  have hf : t.sig ∈ filterValidSignals signals := hmem.1
  unfold filterValidSignals at hf
  have h2 := List.mem_filter.mp hf
  have hpos : 0 < t.sig.leverage := by
    have h3 := h2.2
    simp only [Bool.and_eq_true, decide_eq_true_eq] at h3
    exact h3.2
  intro hlt
  have h0 : calculateLeverage t.sig.confidence parameters = 0 :=
    (calculateLeverage_eq_zero_iff parameters hthr _).mpr hlt
  rw [hlev t.sig h2.1, h0] at hpos
  exact lt_irrefl 0 hpos

/-- Witness for C2 at the default threshold 70: a 65-confidence signal gets
leverage 0, and on a concrete signal list every selected trade is
at-or-above threshold. -/
theorem C2_witness :
    (∀ c, c < defaultParameters.confidence_threshold →
      calculateLeverage c defaultParameters = 0) ∧
    ∀ t ∈ selectTradesToExecute (filterValidSignals [weakSignal, strongSignal]) 1000 [],
      ¬ t.sig.confidence < defaultParameters.confidence_threshold :=
  C2_below_threshold_never_selected defaultParameters [weakSignal, strongSignal]
    1000 [] (by decide) (by decide)

/-- Claim C3: instruments whose exchange-minimum quantity needs more than
20% of equity are rejected (`canTrade = false`) and never selected, and the
capital allocated by the greedy selection on top of the pre-existing
exposure never exceeds total equity. -/
theorem C3_min_fraction_ceiling_and_budget (totalBalance : ℚ)
    (signals : List TradeSignal) (openPositions : List Position) :
    (∀ (symbol : String) (price leverage : ℚ),
      20 < minQtyLookup symbol * price / leverage / totalBalance * 100 →
      (calculateOptimalRisk symbol price totalBalance leverage).canTrade = false) ∧
    (∀ t ∈ selectTradesToExecute signals totalBalance openPositions,
      (calculateOptimalRisk t.sig.symbol t.sig.price totalBalance t.sig.leverage).canTrade = true) ∧
    (calculateUsedBalance openPositions ≤ totalBalance →
      (∀ n : ℕ, calculateUsedBalance openPositions +
        sumCosts ((selectTradesToExecute signals totalBalance openPositions).take n)
          ≤ totalBalance) ∧
      calculateUsedBalance openPositions +
        sumCosts (selectTradesToExecute signals totalBalance openPositions) ≤ totalBalance) := by
  refine ⟨?_, ?_, ?_⟩
  · intro symbol price leverage h
    unfold calculateOptimalRisk
    dsimp only
    split_ifs with h1
    · exfalso
      rcases h1 with h1 | h1 <;> linarith
    · rfl
  · intro t ht
    exact (selectTradesToExecute_mem _ _ _ _ ht).2
  · intro h
    unfold selectTradesToExecute
    exact ⟨fun n => selectLoop_budget_prefix totalBalance _ _ h n,
      selectLoop_budget totalBalance _ _ h⟩

/-- Witness for C3: at balance 1000, XRPUSDT at price 25 and leverage 1
needs 25% for its minimum quantity and is rejected; on a concrete signal
list every selected trade is tradable and the budget bound holds. -/
theorem C3_witness :
    (calculateOptimalRisk "XRPUSDT" 25 1000 1).canTrade = false ∧
    (∀ t ∈ selectTradesToExecute [oversizedSignal, strongSignal] 1000 [],
      (calculateOptimalRisk t.sig.symbol t.sig.price 1000 t.sig.leverage).canTrade = true) ∧
    calculateUsedBalance [] +
      sumCosts (selectTradesToExecute [oversizedSignal, strongSignal] 1000 []) ≤ 1000 := by
  refine ⟨?_, ?_, ?_⟩
  · exact (C3_min_fraction_ceiling_and_budget 1000 [oversizedSignal, strongSignal] []).1
      "XRPUSDT" 25 1 (by decide)
  · exact (C3_min_fraction_ceiling_and_budget 1000 [oversizedSignal, strongSignal] []).2.1
  · exact ((C3_min_fraction_ceiling_and_budget 1000 [oversizedSignal, strongSignal] []).2.2
      (by decide)).2

/-- Claim C4: every indicator returns its documented neutral default on a
window shorter than its minimum period (RSI 50; Stochastic RSI k = d = 50
with NEUTRAL; Ichimoku all-zero NEUTRAL; ADX zero WEAK; Stochastic 50/50;
MACD all-zero).  The embedded functions are total, which is the
shallow-embedding form of "never throws". -/
theorem C4_short_window_neutral_defaults :
    (∀ (closes : List ℚ) (period : ℕ), closes.length < period + 1 →
      calculateRSI closes period = 50) ∧
    (∀ (candles : List Candle) (period : ℕ), candles.length < period + 1 →
      calculateStochasticRSI candles period = ⟨50, 50, .NEUTRAL⟩) ∧
    (∀ candles : List Candle, candles.length < 52 →
      calculateIchimoku candles = ⟨0, 0, 0, 0, 0, .NEUTRAL⟩) ∧
    (∀ (candles : List Candle) (period : ℕ), candles.length < period + 1 →
      calculateADX candles period = ⟨0, 0, 0, .WEAK⟩) ∧
    (∀ (candles : List Candle) (period : ℕ), candles.length < period →
      calculateStochastic candles period = ⟨50, 50⟩) ∧
    (∀ closes : List ℚ, closes.length < 26 → calculateMACD closes = ⟨0, 0, 0⟩) := by
  refine ⟨?_, ?_, ?_, ?_, ?_, ?_⟩
  · intro closes period h
    unfold calculateRSI
    rw [if_pos h]
  · intro candles period h
    unfold calculateStochasticRSI
    rw [if_pos h]
  · intro candles h
    unfold calculateIchimoku
    rw [if_pos h]
  · intro candles period h
    unfold calculateADX
    rw [if_pos h]
  · intro candles period h
    unfold calculateStochastic
    rw [if_pos h]
  · intro closes h
    unfold calculateMACD
    rw [if_pos h]

/-- Witness for C4 on concrete short windows. -/
theorem C4_witness :
    calculateRSI [1, 2, 3] 14 = 50 ∧
    calculateStochasticRSI [] 14 = ⟨50, 50, .NEUTRAL⟩ ∧
    calculateIchimoku [⟨1, 2, 0, 1, 5⟩] = ⟨0, 0, 0, 0, 0, .NEUTRAL⟩ ∧
    calculateADX [] 14 = ⟨0, 0, 0, .WEAK⟩ ∧
    calculateStochastic [] 14 = ⟨50, 50⟩ ∧
    calculateMACD [1] = ⟨0, 0, 0⟩ :=
  ⟨C4_short_window_neutral_defaults.1 [1, 2, 3] 14 (by decide),
    C4_short_window_neutral_defaults.2.1 [] 14 (by decide),
    C4_short_window_neutral_defaults.2.2.1 [⟨1, 2, 0, 1, 5⟩] (by decide),
    C4_short_window_neutral_defaults.2.2.2.1 [] 14 (by decide),
    C4_short_window_neutral_defaults.2.2.2.2.1 [] 14 (by decide),
    C4_short_window_neutral_defaults.2.2.2.2.2 [1] (by decide)⟩

/-- Claim C5 is contradicted by the code: `applyOptimization` writes the
recommended values verbatim and no code path validates or clamps them.
Starting from the default threshold 70, seven consecutive low-win-rate
analysis rounds (each recommending `threshold + 5`) leave
`confidence_threshold = 105`, outside the [0,100] confidence range the
system's signals live in. -/
theorem C5_threshold_leaves_valid_range :
    ((performanceRound trades10)^[7] defaultLearningData).current_parameters.confidence_threshold
        = 105 ∧
    ¬ ((performanceRound trades10)^[7]
        defaultLearningData).current_parameters.confidence_threshold ≤ 100 :=
  ⟨by decide, by decide⟩

/-- Claim C6 is contradicted by the code: the trailing-stop branch of
`monitorPositions` is an empty stub (the source only logs; its body is the
comment "Implementar lógica de trailing stop aqui").  A Buy position with
12% unrealized profit — above the 10% trailing threshold — passes through a
monitoring cycle with its stop level unchanged at 95 and no close request:
the stop is never ratcheted toward breakeven. -/
theorem C6_trailing_stop_never_moves :
    10 < profitPos.unrealizedPnlPercent ∧
    (monitorPositions defaultParameters [profitPos] []).positions = [profitPos] ∧
    (monitorPositions defaultParameters [profitPos] []).positions.map (·.stopLoss) = [95] ∧
    (monitorPositions defaultParameters [profitPos] []).closeRequests = [] :=
  ⟨by decide, by decide, by decide, by decide⟩

/-- Claim C7: an instrument with at least 3 closed trades in the analyzed
window and a win rate below the 30% floor receives a `disable_coin`
recommendation, applying the recommendations adds it to `disabled_coins`,
and the next cycle's active instrument universe excludes it. -/
theorem C7_losing_instrument_disabled (trades : List TradeRec) (X : String)
    (data : LearningData) (cur : LearnedParams)
    (h3 : 3 ≤ (coinPerformance
      (trades.filter (fun t => t.status == TStatus.closed)) X).trades)
    (hwr : (coinPerformance
      (trades.filter (fun t => t.status == TStatus.closed)) X).win_rate < 30) :
    Recommendation.disable_coin X ∈
      identifyIssuesAndOpportunities [] (analyzeRecentPerformance trades) cur ∧
    X ∈ (applyOptimizations data
      (identifyIssuesAndOpportunities [] (analyzeRecentPerformance trades) cur)).disabled_coins ∧
    X ∉ activeSymbols
      (applyOptimizations data
        (identifyIssuesAndOpportunities [] (analyzeRecentPerformance trades) cur)).disabled_coins
      data.prioritized_coins := by
  have hpos : 0 < (coinPerformance
      (trades.filter (fun t => t.status == TStatus.closed)) X).trades :=
    lt_of_lt_of_le (by norm_num) h3
  have hmemX := coinPerformance_mem_symbols _ X hpos
  have hded := (mem_dedupFirst X
    ((trades.filter (fun t => t.status == TStatus.closed)).map (·.symbol))).mpr hmemX
  have hpair : (X, coinPerformance
      (trades.filter (fun t => t.status == TStatus.closed)) X) ∈
      (analyzeRecentPerformance trades).coin_performance := by
    unfold analyzeRecentPerformance
    exact List.mem_map_of_mem _ hded
  have hrec := disable_mem_identify [] (analyzeRecentPerformance trades) cur X _
    hpair h3 hwr
  have hdis := disabled_mem_applyOptimizations data _ X (Or.inl hrec)
  exact ⟨hrec, hdis, not_mem_activeSymbols _ _ X hdis⟩

/-- Witness for C7: ten closed XRPUSDT trades at 20% win rate disable
XRPUSDT and exclude it from the next universe. -/
theorem C7_witness :
    Recommendation.disable_coin "XRPUSDT" ∈
      identifyIssuesAndOpportunities [] (analyzeRecentPerformance trades10)
        defaultParameters ∧
    "XRPUSDT" ∈ (applyOptimizations defaultLearningData
      (identifyIssuesAndOpportunities [] (analyzeRecentPerformance trades10)
        defaultParameters)).disabled_coins ∧
    "XRPUSDT" ∉ activeSymbols
      (applyOptimizations defaultLearningData
        (identifyIssuesAndOpportunities [] (analyzeRecentPerformance trades10)
          defaultParameters)).disabled_coins
      defaultLearningData.prioritized_coins :=
  C7_losing_instrument_disabled trades10 "XRPUSDT" defaultLearningData
    defaultParameters (by decide) (by decide)

/-- Claim C8: past the quality gates, the decision is `BUY` iff the bullish
score reaches the minimum 12 and beats the bearish score by more than the
3-point margin, symmetrically for `SELL`, and `HOLD` otherwise. -/
theorem C8_decision_rule (b : UltraBundle)
    (h1 : 40 ≤ b.volume.liquidity.score) (h2 : b.adv.adx.trend ≠ .WEAK) :
    ((ultraDecision b).signal = .BUY ↔
      12 ≤ bullishScoreOf b ∧ bearishScoreOf b + 3 < bullishScoreOf b) ∧
    ((ultraDecision b).signal = .SELL ↔
      12 ≤ bearishScoreOf b ∧ bullishScoreOf b + 3 < bearishScoreOf b) ∧
    (¬ (12 ≤ bullishScoreOf b ∧ bearishScoreOf b + 3 < bullishScoreOf b) →
      ¬ (12 ≤ bearishScoreOf b ∧ bullishScoreOf b + 3 < bearishScoreOf b) →
      (ultraDecision b).signal = .HOLD) := by
  rw [ultraDecision_signal_eq b h1 h2]
  split_ifs with hB hS
  · exact ⟨⟨fun _ => hB, fun _ => rfl⟩,
      ⟨fun h => absurd h (by decide), fun hS' => False.elim (by
        rcases hB with ⟨_, hb2⟩
        rcases hS' with ⟨_, hs2⟩
        linarith)⟩,
      fun h _ => absurd hB h⟩
  · exact ⟨⟨fun h => absurd h (by decide), fun hB' => absurd hB' hB⟩,
      ⟨fun _ => hS, fun _ => rfl⟩,
      fun _ h => absurd hS h⟩
  · exact ⟨⟨fun h => absurd h (by decide), fun hB' => absurd hB' hB⟩,
      ⟨fun h => absurd h (by decide), fun hS' => absurd hS' hS⟩,
      fun _ _ => rfl⟩

/-- Witness for C8: a concrete gate-passing bundle with bullish score 13
and bearish score 0 yields `BUY`. -/
theorem C8_witness : (ultraDecision bundleBuy).signal = SigDir.BUY :=
  (C8_decision_rule bundleBuy (by decide) (by decide)).1.mpr (by decide)

theorem ultraSignal_BUY_cond (b : UltraBundle)
    (h1 : 40 ≤ b.volume.liquidity.score) (h2 : b.adv.adx.trend ≠ .WEAK)
    (hsig : (ultraDecision b).signal = .BUY) :
    12 ≤ bullishScoreOf b ∧ bearishScoreOf b + 3 < bullishScoreOf b := by
  rw [ultraDecision_signal_eq b h1 h2] at hsig
  split_ifs at hsig with h h'
  exact h

theorem ultraSignal_SELL_cond (b : UltraBundle)
    (h1 : 40 ≤ b.volume.liquidity.score) (h2 : b.adv.adx.trend ≠ .WEAK)
    (hsig : (ultraDecision b).signal = .SELL) :
    ¬ (12 ≤ bullishScoreOf b ∧ bearishScoreOf b + 3 < bullishScoreOf b) ∧
      (12 ≤ bearishScoreOf b ∧ bullishScoreOf b + 3 < bearishScoreOf b) := by
  rw [ultraDecision_signal_eq b h1 h2] at hsig
  split_ifs at hsig with h h'
  exact ⟨h, h'⟩

theorem ultraBase_mono_bearish {bu₁ bu₂ be₁ be₂ : ℚ}
    (hn₁ : ¬ (12 ≤ bu₁ ∧ be₁ + 3 < bu₁)) (hS₁ : 12 ≤ be₁ ∧ bu₁ + 3 < be₁)
    (hn₂ : ¬ (12 ≤ bu₂ ∧ be₂ + 3 < bu₂)) (hS₂ : 12 ≤ be₂ ∧ bu₂ + 3 < be₂)
    (h : be₁ ≤ be₂) : ultraBase bu₁ be₁ ≤ ultraBase bu₂ be₂ := by
  unfold ultraBase jsMin
  rw [if_neg hn₁, if_pos hS₁, if_neg hn₂, if_pos hS₂]
  exact min_le_min le_rfl (by linarith)

/-- Claim C9: past the quality gates, the returned confidence is
non-decreasing in the winning score for a fixed sentiment impact (BUY in
`bullishScore`, SELL in `bearishScore`), the sentiment impact adjusts it
additively and monotonically (positive impact can only raise it, negative
only lower it, through the [0,100] clamp), and the final confidence always
lies in [0,100] — on the gate-rejected bars as well. -/
theorem C9_confidence_monotone_bounded :
    (∀ b₁ b₂ : UltraBundle,
      40 ≤ b₁.volume.liquidity.score → b₁.adv.adx.trend ≠ .WEAK →
      40 ≤ b₂.volume.liquidity.score → b₂.adv.adx.trend ≠ .WEAK →
      b₁.sentiment.impact = b₂.sentiment.impact →
      (ultraDecision b₁).signal = .BUY → (ultraDecision b₂).signal = .BUY →
      bullishScoreOf b₁ ≤ bullishScoreOf b₂ →
      (ultraDecision b₁).confidence ≤ (ultraDecision b₂).confidence) ∧
    (∀ b₁ b₂ : UltraBundle,
      40 ≤ b₁.volume.liquidity.score → b₁.adv.adx.trend ≠ .WEAK →
      40 ≤ b₂.volume.liquidity.score → b₂.adv.adx.trend ≠ .WEAK →
      b₁.sentiment.impact = b₂.sentiment.impact →
      (ultraDecision b₁).signal = .SELL → (ultraDecision b₂).signal = .SELL →
      bearishScoreOf b₁ ≤ bearishScoreOf b₂ →
      (ultraDecision b₁).confidence ≤ (ultraDecision b₂).confidence) ∧
    (∀ b₁ b₂ : UltraBundle,
      40 ≤ b₁.volume.liquidity.score → b₁.adv.adx.trend ≠ .WEAK →
      40 ≤ b₂.volume.liquidity.score → b₂.adv.adx.trend ≠ .WEAK →
      bullishScoreOf b₁ = bullishScoreOf b₂ →
      bearishScoreOf b₁ = bearishScoreOf b₂ →
      b₁.sentiment.impact ≤ b₂.sentiment.impact →
      (ultraDecision b₁).confidence ≤ (ultraDecision b₂).confidence) ∧
    (∀ b : UltraBundle,
      40 ≤ b.volume.liquidity.score → b.adv.adx.trend ≠ .WEAK →
      (ultraDecision b).confidence = jsRound (jsMax 0 (jsMin 100
        (ultraBase (bullishScoreOf b) (bearishScoreOf b) + b.sentiment.impact)))) ∧
    (∀ b : UltraBundle,
      0 ≤ (ultraDecision b).confidence ∧ (ultraDecision b).confidence ≤ 100) := by
  refine ⟨?_, ?_, ?_, fun b hg1 hg2 => ultraDecision_confidence_eq b hg1 hg2, ?_⟩
  · intro b₁ b₂ hg1 hg2 hg3 hg4 himp hs1 hs2 hsc
    rw [ultraDecision_confidence_eq b₁ hg1 hg2,
      ultraDecision_confidence_eq b₂ hg3 hg4, himp]
    exact clampRound_mono
      (ultraBase_mono_bullish (ultraSignal_BUY_cond b₁ hg1 hg2 hs1)
        (ultraSignal_BUY_cond b₂ hg3 hg4 hs2) hsc) le_rfl
  · intro b₁ b₂ hg1 hg2 hg3 hg4 himp hs1 hs2 hsc
    rw [ultraDecision_confidence_eq b₁ hg1 hg2,
      ultraDecision_confidence_eq b₂ hg3 hg4, himp]
    have c₁ := ultraSignal_SELL_cond b₁ hg1 hg2 hs1
    have c₂ := ultraSignal_SELL_cond b₂ hg3 hg4 hs2
    exact clampRound_mono (ultraBase_mono_bearish c₁.1 c₁.2 c₂.1 c₂.2 hsc) le_rfl
  · intro b₁ b₂ hg1 hg2 hg3 hg4 hbu hbe himp
    rw [ultraDecision_confidence_eq b₁ hg1 hg2,
      ultraDecision_confidence_eq b₂ hg3 hg4, hbu, hbe]
    exact clampRound_mono le_rfl himp
  · intro b
    by_cases hg1 : b.volume.liquidity.score < 40
    · have : (ultraDecision b).confidence = 20 := by
        unfold ultraDecision
        rw [if_pos hg1]
      rw [this]
      norm_num
    · by_cases hg2 : b.adv.adx.trend = .WEAK
      · have : (ultraDecision b).confidence = 25 := by
          unfold ultraDecision
          rw [if_neg hg1, if_pos hg2]
        rw [this]
        norm_num
      · rw [ultraDecision_confidence_eq b (not_lt.mp hg1) hg2]
        exact clampRound_bounds _

/-- Witness for C9 on concrete bundles: adding a bullish factor raises the
confidence, and the bounds hold on a concrete bundle. -/
theorem C9_witness :
    (ultraDecision bundleBuy).confidence ≤ (ultraDecision bundleBuy15).confidence ∧
    (0 ≤ (ultraDecision bundleBuy).confidence ∧
      (ultraDecision bundleBuy).confidence ≤ 100) :=
  ⟨C9_confidence_monotone_bounded.1 bundleBuy bundleBuy15 (by decide) (by decide)
      (by decide) (by decide) (by decide) (by decide) (by decide) (by decide),
    C9_confidence_monotone_bounded.2.2.2.2 bundleBuy⟩

/-- Claim C10: `calculateLeverage` returns 0 exactly below the (nonzero)
learned threshold, returns a value in {2, 3, 5, 7, 8, 10} at or above it
(so leverage never exceeds 10), and is non-decreasing in confidence. -/
theorem C10_leverage_spec (parameters : LearnedParams)
    (h : parameters.confidence_threshold ≠ 0) :
    (∀ c, calculateLeverage c parameters = 0 ↔ c < parameters.confidence_threshold) ∧
    (∀ c, ¬ c < parameters.confidence_threshold →
      calculateLeverage c parameters ∈ ([2, 3, 5, 7, 8, 10] : List ℚ)) ∧
    (∀ c, calculateLeverage c parameters ≤ 10) ∧
    (∀ c₁ c₂, c₁ ≤ c₂ →
      calculateLeverage c₁ parameters ≤ calculateLeverage c₂ parameters) := by
  refine ⟨fun c => calculateLeverage_eq_zero_iff parameters h c, fun c hc => ?_,
    fun c => ?_, fun c₁ c₂ hc => calculateLeverage_mono parameters hc⟩
  · exact calculateLeverage_mem parameters c
      (fun h0 => hc ((calculateLeverage_eq_zero_iff parameters h c).mp h0))
  · by_cases h0 : calculateLeverage c parameters = 0
    · rw [h0]; norm_num
    · have := calculateLeverage_mem parameters c h0
      simp only [List.mem_cons, List.not_mem_nil, or_false] at this
      rcases this with h' | h' | h' | h' | h' | h' <;> rw [h'] <;> norm_num

/-- Witness for C10 at the default threshold 70. -/
theorem C10_witness :
    calculateLeverage 65 defaultParameters = 0 ∧
    calculateLeverage 79 defaultParameters ∈ ([2, 3, 5, 7, 8, 10] : List ℚ) ∧
    calculateLeverage 93 defaultParameters ≤ 10 ∧
    calculateLeverage 72 defaultParameters ≤ calculateLeverage 93 defaultParameters :=
  ⟨(C10_leverage_spec defaultParameters (by decide)).1 65 |>.mpr (by decide),
    (C10_leverage_spec defaultParameters (by decide)).2.1 79 (by decide),
    (C10_leverage_spec defaultParameters (by decide)).2.2.1 93,
    (C10_leverage_spec defaultParameters (by decide)).2.2.2 72 93 (by decide)⟩

end TraderManus
